import Mathlib

/-!
# RaSmartCar4WD: a shallow embedding of the car facade

The class `RaSmartCar4WD` (files `RaSmartCar4WD.h` and `RaSmartCar4WD.cpp`) is embedded by
explicit state passing.  A value of `Car` holds the scalar members of the class together
with the chronological record of everything the object has done to its peripherals
(pin writes, display frames, servo commands, delays, serial output, ranger samples).
Every member function becomes a function `Car → ... → Car`; what a member function
reads from a sensor or from the serial link is an argument of its embedding.

C `int` and `long` values are `Int`.  The only arithmetic of the class on a member is
`speed + SPEED_STEP` and `speed - SPEED_STEP`; for `speed` between 0 and 255 neither leaves
the range of a 16 bit `int`, so no wrap-around is modelled.
-/

namespace RaSmartCar4WD

/-! ## Constants of `RaSmartCar4WD.h` -/

/-- Pins, named by the `PIN_*` macros of the header. -/
inductive Pin
  | PIN_LED
  | PIN_SERVO
  | PIN_TRACKING_LEFT
  | PIN_TRACKING_MIDDLE
  | PIN_TRACKING_RIGHT
  | PIN_TRIGGER
  | PIN_ECHO
  | PIN_IR_RECEIVER
  | PIN_MOTOR_L_CTRL
  | PIN_MOTOR_L_PWM
  | PIN_MOTOR_R_CTRL
  | PIN_MOTOR_R_PWM
  | PIN_MATRIX_CLOCK
  | PIN_MATRIX_DATA
  deriving DecidableEq, Repr

/-- Logic level of a digital pin (`LOW`, `HIGH`). -/
inductive Level
  | LOW
  | HIGH
  deriving DecidableEq, Repr

/-- Direction of a pin (`INPUT`, `OUTPUT`). -/
inductive PinMode
  | INPUT
  | OUTPUT
  deriving DecidableEq, Repr

def DIST_UNIT_CM : Int := 0
def DIST_UNIT_INCH : Int := 1

def SPEED_MAX : Int := 255
def SPEED_STEP : Int := 10

def BT_MODE_RUN : Int := 1
def BT_MODE_ANTI_DROP : Int := 2
def BT_MODE_LINE_TRACKING : Int := 3
def BT_MODE_AVOID : Int := 4
def BT_MODE_FOLLOWING : Int := 5

/-! ## Peripheral record -/

/-- The five motion primitives of the class (each has a form without argument, and all
but `stop` a form with a speed argument). -/
inductive Motion
  | goForward
  | goBackward
  | turnLeft
  | turnRight
  | stop
  deriving DecidableEq, Repr

/-- One entry of the peripheral record.  `enter m` is a ghost entry written when the body
of motion primitive `m` is entered; every other entry is one call of the Arduino core or
of a peripheral library made by the class. -/
inductive Event
  | enter (m : Motion)
  | pinMode (p : Pin) (m : PinMode)
  | digitalWrite (p : Pin) (l : Level)
  | analogWrite (p : Pin) (duty : Int)
  | servoAttach (p : Pin)
  | servoWrite (angle : Int)
  | serialBegin (baud : Int)
  | serialPrint (s : String)
  | serialPrintln (s : String)
  | rcInit
  | rcSetDebug (dbg : Bool)
  | rcResume
  | ledInit
  | ledDisplay (entries : List Nat)
  | delay (ms : Int)
  | distance (d : Int)
  deriving DecidableEq, Repr

/-- The object: the scalar members of `class RaSmartCar4WD` and the peripheral record.
The members `servoHead`, `rcHandler`, `ledMatrix` and `distSensor` are handles of
peripherals; what is done through them is appended to `trace`. -/
structure Car where
  debug : Bool
  distanceUnit : Int
  speed : Int
  showSymbols : Bool
  btMode : Int
  trace : List Event
  deriving DecidableEq, Repr

/-- What one call of a tick function obtains from the outside world.
* `serial`: `none` when `Serial.available()` is false, `some b` when `Serial.read()` gives `b`;
* `btVal`: the indeterminate content of the local `char btVal` of `enableBluetoothControl`,
  which the function declares without initialiser and dispatches on when no byte is read;
* `left`, `middle`, `right`: the results of `digitalRead` on the three tracking pins;
* `distance`, `distLeft`, `distRight`: the results of the successive calls of
  `distSensor->Distance()` (named after the locals that receive them). -/
structure Inputs where
  serial : Option Char
  btVal : Char
  left : Int
  middle : Int
  right : Int
  distance : Int
  distLeft : Int
  distRight : Int
  deriving DecidableEq, Repr

/-- What `rcHandler` answers during one call of `handleRemoteControl`. -/
structure Remote where
  hasSignal : Bool
  isArrowUp : Bool
  isArrowDown : Bool
  isArrowLeft : Bool
  isArrowRight : Bool
  isKeyOk : Bool
  deriving DecidableEq, Repr

/-- Append one entry to the peripheral record. -/
def emit (c : Car) (e : Event) : Car :=
  { c with trace := c.trace ++ [e] }

def pinMode (c : Car) (p : Pin) (m : PinMode) : Car := emit c (.pinMode p m)
def digitalWrite (c : Car) (p : Pin) (l : Level) : Car := emit c (.digitalWrite p l)
def analogWrite (c : Car) (p : Pin) (duty : Int) : Car := emit c (.analogWrite p duty)
def delay (c : Car) (ms : Int) : Car := emit c (.delay ms)
def serialPrint (c : Car) (s : String) : Car := emit c (.serialPrint s)
def serialPrintln (c : Car) (s : String) : Car := emit c (.serialPrintln s)

/-- The call `distSensor->Distance()` when the ranger answers `d`: the sample is recorded. -/
def sample (c : Car) (d : Int) : Car := emit c (.distance d)

/-! ## Configuration -/

/-- `RaSmartCar4WD::setServoAngle`. -/
def setServoAngle (c : Car) (iAngle : Int) : Car := emit c (.servoWrite iAngle)

/-- `RaSmartCar4WD::setSpeed`.  In the two out-of-range branches the source assigns the
bound to the parameter `iSpeed` and returns; the member `speed` is written in the last
branch only. -/
def setSpeed (c : Car) (iSpeed : Int) : Car :=
  if iSpeed < 0 then c
  else if iSpeed > SPEED_MAX then c
  else { c with speed := iSpeed }

/-- `RaSmartCar4WD::setDebug`. -/
def setDebug (c : Car) (dbg : Bool) : Car :=
  let c := { c with debug := dbg }
  emit c (.rcSetDebug c.debug)

/-- `RaSmartCar4WD::setDistanceUnit`. -/
def setDistanceUnit (c : Car) (unit : Int) : Car := { c with distanceUnit := unit }

/-- `RaSmartCar4WD::setShowSymbols`. -/
def setShowSymbols (c : Car) (iShow : Bool) : Car := { c with showSymbols := iShow }

/-- `RaSmartCar4WD::init`. -/
def init (c : Car) : Car :=
  let c := pinMode c .PIN_LED .OUTPUT
  let c := pinMode c .PIN_SERVO .OUTPUT
  let c := pinMode c .PIN_TRACKING_LEFT .INPUT
  let c := pinMode c .PIN_TRACKING_MIDDLE .INPUT
  let c := pinMode c .PIN_TRACKING_RIGHT .INPUT
  let c := pinMode c .PIN_TRIGGER .OUTPUT
  let c := pinMode c .PIN_ECHO .INPUT
  let c := pinMode c .PIN_MOTOR_L_CTRL .OUTPUT
  let c := pinMode c .PIN_MOTOR_L_PWM .OUTPUT
  let c := pinMode c .PIN_MOTOR_R_CTRL .OUTPUT
  let c := pinMode c .PIN_MOTOR_R_PWM .OUTPUT
  let c := pinMode c .PIN_MATRIX_CLOCK .OUTPUT
  let c := pinMode c .PIN_MATRIX_DATA .OUTPUT
  let c := emit c (.servoAttach .PIN_SERVO)
  let c := setSpeed c 0
  let c := { c with distanceUnit := DIST_UNIT_CM }
  let c := emit c (.serialBegin 9600)
  let c := emit c .rcInit
  let c := emit c .ledInit
  setServoAngle c 90

/-! ## Display -/

/-- The array `left` of `RaSmartCar4WD::displayLeft`. -/
def glyphLeft : List Nat :=
  [0x00,0x00,0x00,0x00,0x00,0x00,0x44,0x28,0x10,0x44,0x28,0x10,0x44,0x28,0x10,0x00]

/-- `RaSmartCar4WD::displayLeft`. -/
def displayLeft (c : Car) : Car :=
  emit c (.ledDisplay glyphLeft)

/-- The array `right` of `RaSmartCar4WD::displayRight`. -/
def glyphRight : List Nat :=
  [0x00,0x10,0x28,0x44,0x10,0x28,0x44,0x10,0x28,0x44,0x00,0x00,0x00,0x00,0x00,0x00]

/-- `RaSmartCar4WD::displayRight`. -/
def displayRight (c : Car) : Car :=
  emit c (.ledDisplay glyphRight)

/-- The array `front` of `RaSmartCar4WD::displayForward`. -/
def glyphForward : List Nat :=
  [0x00,0x00,0x00,0x00,0x00,0x24,0x12,0x09,0x12,0x24,0x00,0x00,0x00,0x00,0x00,0x00]

/-- `RaSmartCar4WD::displayForward`. -/
def displayForward (c : Car) : Car :=
  emit c (.ledDisplay glyphForward)

/-- The array `back` of `RaSmartCar4WD::displayBackward`. -/
def glyphBackward : List Nat :=
  [0x00,0x00,0x00,0x00,0x00,0x24,0x48,0x90,0x48,0x24,0x00,0x00,0x00,0x00,0x00,0x00]

/-- `RaSmartCar4WD::displayBackward`. -/
def displayBackward (c : Car) : Car :=
  emit c (.ledDisplay glyphBackward)

/-- The array `stop` of `RaSmartCar4WD::displayStop`. -/
def glyphStop : List Nat :=
  [0x2E,0x2A,0x3A,0x00,0x02,0x3E,0x02,0x00,0x3E,0x22,0x3E,0x00,0x3E,0x0A,0x0E,0x00]

/-- `RaSmartCar4WD::displayStop`. -/
def displayStop (c : Car) : Car :=
  emit c (.ledDisplay glyphStop)

/-! ## Motion primitives

The forms without argument keep the source name; the overloads with a speed argument
carry the suffix `Speed`. -/

/-- `RaSmartCar4WD::goForward()`. -/
def goForward (c : Car) : Car :=
  let c := emit c (.enter .goForward)
  let c := if c.showSymbols then displayForward c else c
  let c := digitalWrite c .PIN_MOTOR_L_CTRL .HIGH
  let c := analogWrite c .PIN_MOTOR_L_PWM c.speed
  let c := digitalWrite c .PIN_MOTOR_R_CTRL .HIGH
  analogWrite c .PIN_MOTOR_R_PWM c.speed

/-- `RaSmartCar4WD::goForward(int iSpeed)`. -/
def goForwardSpeed (c : Car) (iSpeed : Int) : Car :=
  let c := emit c (.enter .goForward)
  let c := if c.showSymbols then displayForward c else c
  let c := digitalWrite c .PIN_MOTOR_L_CTRL .HIGH
  let c := analogWrite c .PIN_MOTOR_L_PWM iSpeed
  let c := digitalWrite c .PIN_MOTOR_R_CTRL .HIGH
  analogWrite c .PIN_MOTOR_R_PWM iSpeed

/-- `RaSmartCar4WD::goBackward()`. -/
def goBackward (c : Car) : Car :=
  let c := emit c (.enter .goBackward)
  let c := if c.showSymbols then displayBackward c else c
  let c := digitalWrite c .PIN_MOTOR_L_CTRL .LOW
  let c := analogWrite c .PIN_MOTOR_L_PWM c.speed
  let c := digitalWrite c .PIN_MOTOR_R_CTRL .LOW
  analogWrite c .PIN_MOTOR_R_PWM c.speed

/-- `RaSmartCar4WD::goBackward(int iSpeed)`. -/
def goBackwardSpeed (c : Car) (iSpeed : Int) : Car :=
  let c := emit c (.enter .goBackward)
  let c := if c.showSymbols then displayBackward c else c
  let c := digitalWrite c .PIN_MOTOR_L_CTRL .LOW
  let c := analogWrite c .PIN_MOTOR_L_PWM iSpeed
  let c := digitalWrite c .PIN_MOTOR_R_CTRL .LOW
  analogWrite c .PIN_MOTOR_R_PWM iSpeed

/-- `RaSmartCar4WD::turnLeft()`. -/
def turnLeft (c : Car) : Car :=
  let c := emit c (.enter .turnLeft)
  let c := if c.showSymbols then displayLeft c else c
  let c := digitalWrite c .PIN_MOTOR_L_CTRL .LOW
  let c := analogWrite c .PIN_MOTOR_L_PWM c.speed
  let c := digitalWrite c .PIN_MOTOR_R_CTRL .HIGH
  analogWrite c .PIN_MOTOR_R_PWM c.speed

/-- `RaSmartCar4WD::turnLeft(int iSpeed)`. -/
def turnLeftSpeed (c : Car) (iSpeed : Int) : Car :=
  let c := emit c (.enter .turnLeft)
  let c := if c.showSymbols then displayLeft c else c
  let c := digitalWrite c .PIN_MOTOR_L_CTRL .LOW
  let c := analogWrite c .PIN_MOTOR_L_PWM iSpeed
  let c := digitalWrite c .PIN_MOTOR_R_CTRL .HIGH
  analogWrite c .PIN_MOTOR_R_PWM iSpeed

/-- `RaSmartCar4WD::turnRight()`. -/
def turnRight (c : Car) : Car :=
  let c := emit c (.enter .turnRight)
  let c := if c.showSymbols then displayRight c else c
  let c := digitalWrite c .PIN_MOTOR_L_CTRL .HIGH
  let c := analogWrite c .PIN_MOTOR_L_PWM c.speed
  let c := digitalWrite c .PIN_MOTOR_R_CTRL .LOW
  analogWrite c .PIN_MOTOR_R_PWM c.speed

/-- `RaSmartCar4WD::turnRight(int iSpeed)`. -/
def turnRightSpeed (c : Car) (iSpeed : Int) : Car :=
  let c := emit c (.enter .turnRight)
  let c := if c.showSymbols then displayRight c else c
  let c := digitalWrite c .PIN_MOTOR_L_CTRL .HIGH
  let c := analogWrite c .PIN_MOTOR_L_PWM iSpeed
  let c := digitalWrite c .PIN_MOTOR_R_CTRL .LOW
  analogWrite c .PIN_MOTOR_R_PWM iSpeed

/-- `RaSmartCar4WD::stop`. -/
def stop (c : Car) : Car :=
  let c := emit c (.enter .stop)
  let c := if c.showSymbols then displayStop c else c
  let c := digitalWrite c .PIN_MOTOR_L_CTRL .LOW
  let c := analogWrite c .PIN_MOTOR_L_PWM 0
  let c := digitalWrite c .PIN_MOTOR_R_CTRL .LOW
  analogWrite c .PIN_MOTOR_R_PWM 0

/-! ## Tick functions -/

/-- `RaSmartCar4WD::enableLineTracking`, the three tracking pins reading `left`, `middle`
and `right`. -/
def enableLineTracking (c : Car) (left middle right : Int) : Car :=
  if middle = 1 then
    goForwardSpeed c 100
  else
    if left = 1 ∧ right = 0 then
      turnLeftSpeed c 200
    else if left = 0 ∧ right = 1 then
      turnRightSpeed c 200
    else
      let c := goForwardSpeed c 70
      let c := delay c 9
      stop c

/-- `RaSmartCar4WD::enableFollowMovingObjects`, the ranger answering `distance`. -/
def enableFollowMovingObjects (c : Car) (distance : Int) : Car :=
  let c := sample c distance
  let c := if c.debug then serialPrintln c ("Distance: " ++ toString distance) else c
  if distance < 8 then
    goBackward c
  else if distance ≥ 8 ∧ distance < 13 then
    stop c
  else if distance ≥ 13 ∧ distance < 35 then
    goForward c
  else
    stop c

/-- `RaSmartCar4WD::enableAvoidObstacles`, the ranger answering `distance` to the first
call and, when they are made, `distLeft` and `distRight` to the second and third. -/
def enableAvoidObstacles (c : Car) (distance distLeft distRight : Int) : Car :=
  let c := sample c distance
  let c := if c.debug then serialPrintln c ("Distance: " ++ toString distance) else c
  if distance < 20 ∧ distance > 0 then
    let c := stop c
    let c := delay c 100
    let c := setServoAngle c 180
    let c := delay c 500
    let c := sample c distLeft
    let c := if c.debug then serialPrintln c ("Distance left: " ++ toString distLeft) else c
    let c := delay c 100
    let c := setServoAngle c 0
    let c := delay c 500
    let c := sample c distRight
    let c := if c.debug then serialPrintln c ("Distance right: " ++ toString distRight) else c
    let c := delay c 100
    let c := if distLeft > distRight then turnLeft c else turnRight c
    let c := setServoAngle c 90
    delay c 300
  else
    goForward c

/-- `RaSmartCar4WD::handleRemoteControl`. -/
def handleRemoteControl (c : Car) (rc : Remote) : Car :=
  let c :=
    if rc.hasSignal then
      let c :=
        if rc.isArrowUp then goForward c
        else if rc.isArrowDown then goBackward c
        else if rc.isArrowLeft then turnLeft c
        else if rc.isArrowRight then turnRight c
        else if rc.isKeyOk then stop c
        else c
      emit c .rcResume
    else c
  delay c 100

/-- The first `switch` of `enableBluetoothControl`: the dispatch on the byte `btVal`. -/
def commandDispatch (c : Car) (btVal : Char) : Car :=
  if btVal = 'F' then goForward { c with btMode := BT_MODE_RUN }
  else if btVal = 'B' then goBackward { c with btMode := BT_MODE_RUN }
  else if btVal = 'L' then turnLeft { c with btMode := BT_MODE_RUN }
  else if btVal = 'R' then turnRight { c with btMode := BT_MODE_RUN }
  else if btVal = 'a' then
    let newSpeed := c.speed + SPEED_STEP
    let newSpeed := if newSpeed > SPEED_MAX then SPEED_MAX else newSpeed
    setSpeed c newSpeed
  else if btVal = 'd' then
    let newSpeed := c.speed - SPEED_STEP
    let newSpeed := if newSpeed < 0 then 0 else newSpeed
    setSpeed c newSpeed
  else if btVal = 'S' then stop (serialPrintln c "Stop")
  else if btVal = 'G' then { c with btMode := BT_MODE_ANTI_DROP }
  else if btVal = 'X' then { c with btMode := BT_MODE_LINE_TRACKING }
  else if btVal = 'Y' then { c with btMode := BT_MODE_AVOID }
  else if btVal = 'U' then { c with btMode := BT_MODE_FOLLOWING }
  else stop (serialPrintln c "Default -> stop")

/-- The second `switch` of `enableBluetoothControl`: the dispatch on `btMode`. -/
def modeDispatch (c : Car) (i : Inputs) : Car :=
  if c.btMode = BT_MODE_ANTI_DROP then stop (serialPrintln c "A faire !!!")
  else if c.btMode = BT_MODE_LINE_TRACKING then enableLineTracking c i.left i.middle i.right
  else if c.btMode = BT_MODE_AVOID then enableAvoidObstacles c i.distance i.distLeft i.distRight
  else if c.btMode = BT_MODE_FOLLOWING then enableFollowMovingObjects c i.distance
  else c

/-- The value of the local `btVal` at the first `switch` of `enableBluetoothControl`:
the byte read when one is available, the indeterminate initial content otherwise. -/
def dispatchedByte (i : Inputs) : Char :=
  match i.serial with
  | some b => b
  | none => i.btVal

/-- `RaSmartCar4WD::enableBluetoothControl`. -/
def enableBluetoothControl (c : Car) (i : Inputs) : Car :=
  let btVal := dispatchedByte i
  let c :=
    if c.debug then serialPrintln (serialPrint c "btVal: ") (String.singleton btVal) else c
  let c := commandDispatch c btVal
  modeDispatch c i

/-! ## Sequences of calls -/

/-- Successive calls of `enableBluetoothControl`, one per element of the input list. -/
def ticks (c : Car) (is : List Inputs) : Car :=
  is.foldl enableBluetoothControl c

/-- One call of a public member function, with what it receives. -/
inductive Op
  | setSpeed (iSpeed : Int)
  | setDebug (dbg : Bool)
  | setDistanceUnit (unit : Int)
  | setShowSymbols (iShow : Bool)
  | setServoAngle (iAngle : Int)
  | goForward
  | goForwardSpeed (iSpeed : Int)
  | goBackward
  | goBackwardSpeed (iSpeed : Int)
  | turnLeft
  | turnLeftSpeed (iSpeed : Int)
  | turnRight
  | turnRightSpeed (iSpeed : Int)
  | stop
  | displayLeft
  | displayRight
  | displayForward
  | displayBackward
  | displayStop
  | enableLineTracking (left middle right : Int)
  | enableFollowMovingObjects (distance : Int)
  | enableAvoidObstacles (distance distLeft distRight : Int)
  | handleRemoteControl (rc : Remote)
  | enableBluetoothControl (i : Inputs)
  deriving DecidableEq, Repr

/-- The effect of one call on the object. -/
def Op.apply (c : Car) : Op → Car
  | .setSpeed iSpeed => RaSmartCar4WD.setSpeed c iSpeed
  | .setDebug dbg => RaSmartCar4WD.setDebug c dbg
  | .setDistanceUnit unit => RaSmartCar4WD.setDistanceUnit c unit
  | .setShowSymbols iShow => RaSmartCar4WD.setShowSymbols c iShow
  | .setServoAngle iAngle => RaSmartCar4WD.setServoAngle c iAngle
  | .goForward => RaSmartCar4WD.goForward c
  | .goForwardSpeed iSpeed => RaSmartCar4WD.goForwardSpeed c iSpeed
  | .goBackward => RaSmartCar4WD.goBackward c
  | .goBackwardSpeed iSpeed => RaSmartCar4WD.goBackwardSpeed c iSpeed
  | .turnLeft => RaSmartCar4WD.turnLeft c
  | .turnLeftSpeed iSpeed => RaSmartCar4WD.turnLeftSpeed c iSpeed
  | .turnRight => RaSmartCar4WD.turnRight c
  | .turnRightSpeed iSpeed => RaSmartCar4WD.turnRightSpeed c iSpeed
  | .stop => RaSmartCar4WD.stop c
  | .displayLeft => RaSmartCar4WD.displayLeft c
  | .displayRight => RaSmartCar4WD.displayRight c
  | .displayForward => RaSmartCar4WD.displayForward c
  | .displayBackward => RaSmartCar4WD.displayBackward c
  | .displayStop => RaSmartCar4WD.displayStop c
  | .enableLineTracking left middle right => RaSmartCar4WD.enableLineTracking c left middle right
  | .enableFollowMovingObjects distance => RaSmartCar4WD.enableFollowMovingObjects c distance
  | .enableAvoidObstacles distance distLeft distRight =>
      RaSmartCar4WD.enableAvoidObstacles c distance distLeft distRight
  | .handleRemoteControl rc => RaSmartCar4WD.handleRemoteControl c rc
  | .enableBluetoothControl i => RaSmartCar4WD.enableBluetoothControl c i

/-- A finite sequence of calls, applied in order. -/
def run (c : Car) (ops : List Op) : Car :=
  ops.foldl Op.apply c

/-! ## Observations on the peripheral record -/

/-- The object with `t` appended to its record and no member changed. -/
def record (c : Car) (t : List Event) : Car :=
  { c with trace := c.trace ++ t }

/-- The motion primitives entered in a record, in order. -/
def motionCalls (t : List Event) : List Motion :=
  t.filterMap fun e =>
    match e with
    | .enter m => some m
    | _ => none

/-- How many motion primitives the object has entered so far. -/
def callCount (c : Car) : Nat :=
  (motionCalls c.trace).length

/-- The motion primitives entered, the servo commands and the ranger samples of a record,
in order; pin writes, display frames, delays and serial output are dropped. -/
def commands (t : List Event) : List Event :=
  t.filter fun e =>
    match e with
    | .enter _ => true
    | .servoWrite _ => true
    | .distance _ => true
    | _ => false

/-- The record of one motion primitive: entry, the frame `glyph` when `sym` is set, then
direction and duty of the left motor and direction and duty of the right motor. -/
def motionEvents (m : Motion) (glyph : List Nat) (sym : Bool) (l r : Level) (duty : Int) :
    List Event :=
  .enter m :: (if sym then [.ledDisplay glyph] else []) ++
    [.digitalWrite .PIN_MOTOR_L_CTRL l, .analogWrite .PIN_MOTOR_L_PWM duty,
     .digitalWrite .PIN_MOTOR_R_CTRL r, .analogWrite .PIN_MOTOR_R_PWM duty]

/-- The object after `long x = distSensor->Distance();` answered `d` and the report
`if(debug) Serial.println(label + String(x));` that follows it in the two ranger
controllers. -/
def sampled (c : Car) (label : String) (d : Int) : Car :=
  if c.debug then serialPrintln (sample c d) (label ++ toString d) else sample c d

/-- The object after the report `if(debug)` of `enableBluetoothControl` on the byte
`btVal`. -/
def echoed (c : Car) (btVal : Char) : Car :=
  if c.debug then serialPrintln (serialPrint c "btVal: ") (String.singleton btVal) else c

/-- The invariant of the data model on the member `speed`. -/
def SpeedInRange (c : Car) : Prop :=
  0 ≤ c.speed ∧ c.speed ≤ SPEED_MAX

/-- A car used in the examples: speed 100, symbols shown, no debug output, mode
`BT_MODE_LINE_TRACKING`, empty record. -/
def exampleCar : Car :=
  { debug := false, distanceUnit := DIST_UNIT_CM, speed := 100, showSymbols := true,
    btMode := BT_MODE_LINE_TRACKING, trace := [] }

/-- Inputs used in the examples: no serial byte, `btVal` holding zero, all sensors zero. -/
def quietInputs : Inputs :=
  { serial := none, btVal := Char.ofNat 0, left := 0, middle := 0, right := 0,
    distance := 0, distLeft := 0, distRight := 0 }

/-- The encoding of a track sensor stated by the doc comments of `getLeftTrack`,
`getMiddleTrack` and `getRightTrack` ("0 = ligne noire détectée, 1 = pas de détection"):
the reading `v` means that the sensor detects the line. -/
def lineDetected (v : Int) : Prop :=
  v = 0

/-! ## General lemmas -/

@[simp] theorem emit_eq_record (c : Car) (e : Event) : emit c e = record c [e] := rfl

@[simp] theorem record_record (c : Car) (s t : List Event) :
    record (record c s) t = record c (s ++ t) := by
  simp [record, List.append_assoc]

@[simp] theorem record_trace (c : Car) (t : List Event) : (record c t).trace = c.trace ++ t := rfl
@[simp] theorem record_speed (c : Car) (t : List Event) : (record c t).speed = c.speed := rfl
@[simp] theorem record_btMode (c : Car) (t : List Event) : (record c t).btMode = c.btMode := rfl
@[simp] theorem record_debug (c : Car) (t : List Event) : (record c t).debug = c.debug := rfl
@[simp] theorem record_showSymbols (c : Car) (t : List Event) :
    (record c t).showSymbols = c.showSymbols := rfl
@[simp] theorem record_distanceUnit (c : Car) (t : List Event) :
    (record c t).distanceUnit = c.distanceUnit := rfl

theorem record_nil (c : Car) : record c [] = c := by
  simp [record]

theorem goForward_eq (c : Car) :
    goForward c = record c (motionEvents .goForward glyphForward c.showSymbols .HIGH .HIGH c.speed) := by
  cases h : c.showSymbols <;>
    simp [goForward, displayForward, digitalWrite, analogWrite, motionEvents, h]

theorem goForwardSpeed_eq (c : Car) (iSpeed : Int) :
    goForwardSpeed c iSpeed =
      record c (motionEvents .goForward glyphForward c.showSymbols .HIGH .HIGH iSpeed) := by
  cases h : c.showSymbols <;>
    simp [goForwardSpeed, displayForward, digitalWrite, analogWrite, motionEvents, h]

theorem goBackward_eq (c : Car) :
    goBackward c = record c (motionEvents .goBackward glyphBackward c.showSymbols .LOW .LOW c.speed) := by
  cases h : c.showSymbols <;>
    simp [goBackward, displayBackward, digitalWrite, analogWrite, motionEvents, h]

theorem goBackwardSpeed_eq (c : Car) (iSpeed : Int) :
    goBackwardSpeed c iSpeed =
      record c (motionEvents .goBackward glyphBackward c.showSymbols .LOW .LOW iSpeed) := by
  cases h : c.showSymbols <;>
    simp [goBackwardSpeed, displayBackward, digitalWrite, analogWrite, motionEvents, h]

theorem turnLeft_eq (c : Car) :
    turnLeft c = record c (motionEvents .turnLeft glyphLeft c.showSymbols .LOW .HIGH c.speed) := by
  cases h : c.showSymbols <;>
    simp [turnLeft, displayLeft, digitalWrite, analogWrite, motionEvents, h]

theorem turnLeftSpeed_eq (c : Car) (iSpeed : Int) :
    turnLeftSpeed c iSpeed =
      record c (motionEvents .turnLeft glyphLeft c.showSymbols .LOW .HIGH iSpeed) := by
  cases h : c.showSymbols <;>
    simp [turnLeftSpeed, displayLeft, digitalWrite, analogWrite, motionEvents, h]

theorem turnRight_eq (c : Car) :
    turnRight c = record c (motionEvents .turnRight glyphRight c.showSymbols .HIGH .LOW c.speed) := by
  cases h : c.showSymbols <;>
    simp [turnRight, displayRight, digitalWrite, analogWrite, motionEvents, h]

theorem turnRightSpeed_eq (c : Car) (iSpeed : Int) :
    turnRightSpeed c iSpeed =
      record c (motionEvents .turnRight glyphRight c.showSymbols .HIGH .LOW iSpeed) := by
  cases h : c.showSymbols <;>
    simp [turnRightSpeed, displayRight, digitalWrite, analogWrite, motionEvents, h]

theorem stop_eq (c : Car) :
    stop c = record c (motionEvents .stop glyphStop c.showSymbols .LOW .LOW 0) := by
  cases h : c.showSymbols <;>
    simp [stop, displayStop, digitalWrite, analogWrite, motionEvents, h]

theorem motionCalls_append (s t : List Event) :
    motionCalls (s ++ t) = motionCalls s ++ motionCalls t := by
  simp [motionCalls, List.filterMap_append]

theorem motionCalls_motionEvents (m : Motion) (glyph : List Nat) (sym : Bool) (l r : Level)
    (duty : Int) : motionCalls (motionEvents m glyph sym l r duty) = [m] := by
  cases sym <;> simp [motionCalls, motionEvents]

theorem commands_append (s t : List Event) : commands (s ++ t) = commands s ++ commands t := by
  simp [commands, List.filter_append]

theorem commands_motionEvents (m : Motion) (glyph : List Nat) (sym : Bool) (l r : Level)
    (duty : Int) : commands (motionEvents m glyph sym l r duty) = [.enter m] := by
  cases sym <;> simp [commands, motionEvents]

theorem sampled_eq (c : Car) (label : String) (d : Int) :
    sampled c label d =
      record c (.distance d ::
        (if c.debug then [.serialPrintln (label ++ toString d)] else [])) := by
  cases h : c.debug <;> simp [sampled, sample, serialPrintln, h]

theorem echoed_eq (c : Car) (btVal : Char) :
    echoed c btVal =
      record c (if c.debug then
        [.serialPrint "btVal: ", .serialPrintln (String.singleton btVal)] else []) := by
  cases h : c.debug <;> simp [echoed, serialPrint, serialPrintln, h, record_nil]

theorem setSpeed_out_of_range (c : Car) (iSpeed : Int) (h : iSpeed < 0 ∨ SPEED_MAX < iSpeed) :
    setSpeed c iSpeed = c := by
  unfold setSpeed
  rcases h with h | h
  · simp [h]
  · by_cases h0 : iSpeed < 0 <;> simp [h0, h]

theorem setSpeed_in_range (c : Car) (iSpeed : Int) (h0 : 0 ≤ iSpeed) (h1 : iSpeed ≤ SPEED_MAX) :
    setSpeed c iSpeed = { c with speed := iSpeed } := by
  unfold setSpeed
  simp [not_lt.mpr h0, not_lt.mpr h1]

/-! ## C1: `setSpeed` -/

/-- C1, evaluated on the code: with a stored speed of 100, `setSpeed(-5)` and `setSpeed(300)`
both leave the stored speed at 100 (the clamp of the argument would be 0 and 255), while
`setSpeed(42)` stores 42. -/
theorem setSpeed_does_not_store_clamped_value :
    (setSpeed exampleCar (-5)).speed = 100 ∧
    (setSpeed exampleCar 300).speed = 100 ∧
    (setSpeed exampleCar 42).speed = 42 := by
  refine ⟨?_, ?_, ?_⟩ <;> simp [setSpeed, exampleCar, SPEED_MAX]

/-! ## C2: the ladder of `enableFollowMovingObjects` -/

theorem follow_lt8 (c : Car) (d : Int) (h : d < 8) :
    enableFollowMovingObjects c d = goBackward (sampled c "Distance: " d) := by
  simp [enableFollowMovingObjects, sampled, sample, serialPrintln, h]

theorem follow_dead_zone (c : Car) (d : Int) (h8 : 8 ≤ d) (h13 : d < 13) :
    enableFollowMovingObjects c d = stop (sampled c "Distance: " d) := by
  simp [enableFollowMovingObjects, sampled, sample, serialPrintln, not_lt.mpr h8, h8, h13]

theorem follow_band (c : Car) (d : Int) (h13 : 13 ≤ d) (h35 : d < 35) :
    enableFollowMovingObjects c d = goForward (sampled c "Distance: " d) := by
  have h8 : ¬ d < 8 := by omega
  have h13n : ¬ d < 13 := by omega
  simp [enableFollowMovingObjects, sampled, sample, serialPrintln, h8, h13n, h13, h35]

theorem follow_lost (c : Car) (d : Int) (h35 : 35 ≤ d) :
    enableFollowMovingObjects c d = stop (sampled c "Distance: " d) := by
  have h8 : ¬ d < 8 := by omega
  have h13 : ¬ d < 13 := by omega
  have h35n : ¬ d < 35 := by omega
  simp [enableFollowMovingObjects, sampled, sample, serialPrintln, h8, h13, h35n]

theorem motionCalls_sampled (c : Car) (label : String) (d : Int) :
    motionCalls (sampled c label d).trace = motionCalls c.trace := by
  cases h : c.debug <;> simp [sampled_eq, h, motionCalls]

/-- C2: for every distance reading `d`, one call of `enableFollowMovingObjects` takes the
sample (and reports it when `debug` is set), then makes exactly one call of a motion
primitive, which depends on `d` only: `goBackward()` when `d < 8`, `stop()` when
`8 ≤ d < 13`, `goForward()` when `13 ≤ d < 35`, `stop()` when `35 ≤ d`.  The forms without
argument drive at the stored speed, which sampling leaves as it was. -/
theorem follow_ladder (c : Car) (d : Int) :
    (d < 8 →
      enableFollowMovingObjects c d = goBackward (sampled c "Distance: " d) ∧
      motionCalls (enableFollowMovingObjects c d).trace = motionCalls c.trace ++ [.goBackward]) ∧
    (8 ≤ d ∧ d < 13 →
      enableFollowMovingObjects c d = stop (sampled c "Distance: " d) ∧
      motionCalls (enableFollowMovingObjects c d).trace = motionCalls c.trace ++ [.stop]) ∧
    (13 ≤ d ∧ d < 35 →
      enableFollowMovingObjects c d = goForward (sampled c "Distance: " d) ∧
      motionCalls (enableFollowMovingObjects c d).trace = motionCalls c.trace ++ [.goForward]) ∧
    (35 ≤ d →
      enableFollowMovingObjects c d = stop (sampled c "Distance: " d) ∧
      motionCalls (enableFollowMovingObjects c d).trace = motionCalls c.trace ++ [.stop]) ∧
    (sampled c "Distance: " d).speed = c.speed := by
  refine ⟨fun h => ?_, fun h => ?_, fun h => ?_, fun h => ?_, ?_⟩
  · rw [follow_lt8 c d h]
    simp [goBackward_eq, motionCalls_append, motionCalls_motionEvents, motionCalls_sampled]
  · rw [follow_dead_zone c d h.1 h.2]
    simp [stop_eq, motionCalls_append, motionCalls_motionEvents, motionCalls_sampled]
  · rw [follow_band c d h.1 h.2]
    simp [goForward_eq, motionCalls_append, motionCalls_motionEvents, motionCalls_sampled]
  · rw [follow_lost c d h]
    simp [stop_eq, motionCalls_append, motionCalls_motionEvents, motionCalls_sampled]
  · simp [sampled_eq]

/-- The ladder of C2 at the readings 5, 10, 20 and 40. -/
theorem follow_ladder_witness :
    (enableFollowMovingObjects exampleCar 5 = goBackward (sampled exampleCar "Distance: " 5) ∧
      motionCalls (enableFollowMovingObjects exampleCar 5).trace =
        motionCalls exampleCar.trace ++ [.goBackward]) ∧
    (enableFollowMovingObjects exampleCar 10 = stop (sampled exampleCar "Distance: " 10) ∧
      motionCalls (enableFollowMovingObjects exampleCar 10).trace =
        motionCalls exampleCar.trace ++ [.stop]) ∧
    (enableFollowMovingObjects exampleCar 20 = goForward (sampled exampleCar "Distance: " 20) ∧
      motionCalls (enableFollowMovingObjects exampleCar 20).trace =
        motionCalls exampleCar.trace ++ [.goForward]) ∧
    (enableFollowMovingObjects exampleCar 40 = stop (sampled exampleCar "Distance: " 40) ∧
      motionCalls (enableFollowMovingObjects exampleCar 40).trace =
        motionCalls exampleCar.trace ++ [.stop]) :=
  ⟨(follow_ladder exampleCar 5).1 (by decide),
   (follow_ladder exampleCar 10).2.1 ⟨by decide, by decide⟩,
   (follow_ladder exampleCar 20).2.2.1 ⟨by decide, by decide⟩,
   (follow_ladder exampleCar 40).2.2.2.1 (by decide)⟩

/-! ## C3: the table of `enableLineTracking` -/

/-- C3: for track readings `l`, `m`, `r` in {0, 1}, one call of `enableLineTracking` is
`goForward(100)` when `m = 1`; `turnLeft(200)` when `m = 0`, `l = 1`, `r = 0`;
`turnRight(200)` when `m = 0`, `l = 0`, `r = 1`; and `goForward(70)`, `delay(9)`, `stop()`
when `m = 0` and `l = r`.  These four cases cover every such triple, and with `m = 1`
the result is the same whatever the side sensors read. -/
theorem lineTracking_table (c : Car) (l m r : Int)
    (hl : l = 0 ∨ l = 1) (hm : m = 0 ∨ m = 1) (hr : r = 0 ∨ r = 1) :
    (m = 1 → enableLineTracking c l m r = goForwardSpeed c 100) ∧
    (m = 0 ∧ l = 1 ∧ r = 0 → enableLineTracking c l m r = turnLeftSpeed c 200) ∧
    (m = 0 ∧ l = 0 ∧ r = 1 → enableLineTracking c l m r = turnRightSpeed c 200) ∧
    (m = 0 ∧ l = r → enableLineTracking c l m r = stop (delay (goForwardSpeed c 70) 9)) ∧
    (m = 1 ∨ (m = 0 ∧ l = 1 ∧ r = 0) ∨ (m = 0 ∧ l = 0 ∧ r = 1) ∨ (m = 0 ∧ l = r)) ∧
    (∀ l' r' : Int, enableLineTracking c l' 1 r' = enableLineTracking c l 1 r) := by
  refine ⟨?_, ?_, ?_, ?_, ?_, ?_⟩
  · intro h
    simp [enableLineTracking, h]
  · rintro ⟨h0, h1, h2⟩
    simp [enableLineTracking, h0, h1, h2]
  · rintro ⟨h0, h1, h2⟩
    simp [enableLineTracking, h0, h1, h2]
  · rintro ⟨h0, h1⟩
    subst h1
    rcases hl with h | h <;> simp [enableLineTracking, h0, h]
  · rcases hl with h | h <;> rcases hm with h' | h' <;> rcases hr with h'' | h'' <;>
      simp [h, h', h'']
  · intro l' r'
    simp [enableLineTracking]

/-- The table of C3 at the readings (0,1,0), (1,0,0), (0,0,1), (0,0,0) and (1,0,1). -/
theorem lineTracking_table_witness :
    enableLineTracking exampleCar 0 1 0 = goForwardSpeed exampleCar 100 ∧
    enableLineTracking exampleCar 1 0 0 = turnLeftSpeed exampleCar 200 ∧
    enableLineTracking exampleCar 0 0 1 = turnRightSpeed exampleCar 200 ∧
    enableLineTracking exampleCar 0 0 0 = stop (delay (goForwardSpeed exampleCar 70) 9) ∧
    enableLineTracking exampleCar 1 0 1 = stop (delay (goForwardSpeed exampleCar 70) 9) :=
  ⟨(lineTracking_table exampleCar 0 1 0 (by decide) (by decide) (by decide)).1 rfl,
   (lineTracking_table exampleCar 1 0 0 (by decide) (by decide) (by decide)).2.1
     ⟨rfl, rfl, rfl⟩,
   (lineTracking_table exampleCar 0 0 1 (by decide) (by decide) (by decide)).2.2.1
     ⟨rfl, rfl, rfl⟩,
   (lineTracking_table exampleCar 0 0 0 (by decide) (by decide) (by decide)).2.2.2.1
     ⟨rfl, rfl⟩,
   (lineTracking_table exampleCar 1 0 1 (by decide) (by decide) (by decide)).2.2.2.1
     ⟨rfl, rfl⟩⟩

/-! ## C4: `enableAvoidObstacles` -/

theorem avoid_clear (c : Car) (d dl dr : Int) (h : d ≤ 0 ∨ 20 ≤ d) :
    enableAvoidObstacles c d dl dr = goForward (sampled c "Distance: " d) := by
  have hn : ¬ (d < 20 ∧ d > 0) := by omega
  simp [enableAvoidObstacles, sampled, sample, serialPrintln, hn]

theorem avoid_obstacle (c : Car) (d dl dr : Int) (h0 : 0 < d) (h20 : d < 20) :
    enableAvoidObstacles c d dl dr =
      delay (setServoAngle
        ((if dl > dr then turnLeft else turnRight)
          (delay (sampled
            (delay (setServoAngle
              (delay (sampled
                (delay (setServoAngle (delay (stop (sampled c "Distance: " d)) 100) 180) 500)
                "Distance left: " dl) 100) 0) 500)
            "Distance right: " dr) 100)) 90) 300 := by
  by_cases hlr : dl > dr <;>
    cases hd : c.debug <;>
      simp [enableAvoidObstacles, sampled, sample, serialPrintln, delay, setServoAngle,
        stop_eq, h0, h20, hlr, hd]

theorem commands_sampled (c : Car) (label : String) (d : Int) :
    commands (sampled c label d).trace = commands c.trace ++ [.distance d] := by
  cases h : c.debug <;> simp [sampled_eq, h, commands]

/-- C4: one call of `enableAvoidObstacles` with forward reading `d` and side readings
`dl`, `dr`.  If `0 < d < 20`, its motion calls, servo commands and ranger samples are, in
order: the sample `d`, `stop()`, servo to 180, the sample `dl`, servo to 0, the sample
`dr`, `turnLeft()` when `dl > dr` and `turnRight()` otherwise (so also when `dl = dr`),
servo to 90; the delays between them are those of the source.  If `d = 0` or `20 ≤ d`,
the call is the sample `d` followed by `goForward()` alone: no servo command and no
second sample. -/
theorem avoid_sequence (c : Car) (d dl dr : Int) :
    (0 < d ∧ d < 20 →
      commands (enableAvoidObstacles c d dl dr).trace =
        commands c.trace ++
          [.distance d, .enter .stop, .servoWrite 180, .distance dl, .servoWrite 0,
           .distance dr, .enter (if dl > dr then .turnLeft else .turnRight),
           .servoWrite 90] ∧
      enableAvoidObstacles c d dl dr =
        delay (setServoAngle
          ((if dl > dr then turnLeft else turnRight)
            (delay (sampled
              (delay (setServoAngle
                (delay (sampled
                  (delay (setServoAngle (delay (stop (sampled c "Distance: " d)) 100) 180) 500)
                  "Distance left: " dl) 100) 0) 500)
              "Distance right: " dr) 100)) 90) 300) ∧
    (d = 0 ∨ 20 ≤ d →
      commands (enableAvoidObstacles c d dl dr).trace =
        commands c.trace ++ [.distance d, .enter .goForward] ∧
      enableAvoidObstacles c d dl dr = goForward (sampled c "Distance: " d)) := by
  refine ⟨fun h => ⟨?_, avoid_obstacle c d dl dr h.1 h.2⟩, fun h => ⟨?_, ?_⟩⟩
  · rw [avoid_obstacle c d dl dr h.1 h.2]
    by_cases hlr : dl > dr <;>
      simp only [hlr, if_true, if_false, delay, setServoAngle, stop_eq, turnLeft_eq,
        turnRight_eq, emit_eq_record, record_record, record_trace, commands_append,
        commands_motionEvents, commands_sampled] <;>
      simp [commands]
  · rw [avoid_clear c d dl dr (by omega)]
    simp [goForward_eq, commands_append, commands_motionEvents, commands_sampled]
  · exact avoid_clear c d dl dr (by omega)

/-- C4 at the readings (15, 30, 10), (15, 10, 30), (10, 10, 10), 0 and 20. -/
theorem avoid_sequence_witness :
    commands (enableAvoidObstacles exampleCar 15 30 10).trace =
      commands exampleCar.trace ++
        [.distance 15, .enter .stop, .servoWrite 180, .distance 30, .servoWrite 0,
         .distance 10, .enter (if (30 : Int) > 10 then .turnLeft else .turnRight),
         .servoWrite 90] ∧
    commands (enableAvoidObstacles exampleCar 15 10 30).trace =
      commands exampleCar.trace ++
        [.distance 15, .enter .stop, .servoWrite 180, .distance 10, .servoWrite 0,
         .distance 30, .enter (if (10 : Int) > 30 then .turnLeft else .turnRight),
         .servoWrite 90] ∧
    commands (enableAvoidObstacles exampleCar 10 10 10).trace =
      commands exampleCar.trace ++
        [.distance 10, .enter .stop, .servoWrite 180, .distance 10, .servoWrite 0,
         .distance 10, .enter (if (10 : Int) > 10 then .turnLeft else .turnRight),
         .servoWrite 90] ∧
    enableAvoidObstacles exampleCar 0 7 9 = goForward (sampled exampleCar "Distance: " 0) ∧
    enableAvoidObstacles exampleCar 20 7 9 = goForward (sampled exampleCar "Distance: " 20) :=
  ⟨((avoid_sequence exampleCar 15 30 10).1 ⟨by decide, by decide⟩).1,
   ((avoid_sequence exampleCar 15 10 30).1 ⟨by decide, by decide⟩).1,
   ((avoid_sequence exampleCar 10 10 10).1 ⟨by decide, by decide⟩).1,
   ((avoid_sequence exampleCar 0 7 9).2 (Or.inl rfl)).2,
   ((avoid_sequence exampleCar 20 7 9).2 (Or.inr (by decide))).2⟩

/-! ## Frame lemmas: the tick functions only append to the record -/

theorem enableLineTracking_record (c : Car) (l m r : Int) :
    ∃ t, enableLineTracking c l m r = record c t := by
  unfold enableLineTracking
  split_ifs <;>
    simp only [goForwardSpeed_eq, turnLeftSpeed_eq, turnRightSpeed_eq, stop_eq, delay,
      emit_eq_record, record_record, record_showSymbols] <;>
    exact ⟨_, rfl⟩

theorem enableFollowMovingObjects_record (c : Car) (d : Int) :
    ∃ t, enableFollowMovingObjects c d = record c t := by
  rcases lt_or_le d 8 with h8 | h8
  · exact ⟨_, by rw [follow_lt8 c d h8, goBackward_eq, sampled_eq, record_record]⟩
  rcases lt_or_le d 13 with h13 | h13
  · exact ⟨_, by rw [follow_dead_zone c d h8 h13, stop_eq, sampled_eq, record_record]⟩
  rcases lt_or_le d 35 with h35 | h35
  · exact ⟨_, by rw [follow_band c d h13 h35, goForward_eq, sampled_eq, record_record]⟩
  · exact ⟨_, by rw [follow_lost c d h35, stop_eq, sampled_eq, record_record]⟩

theorem enableAvoidObstacles_record (c : Car) (d dl dr : Int) :
    ∃ t, enableAvoidObstacles c d dl dr = record c t := by
  by_cases h : 0 < d ∧ d < 20
  · rw [avoid_obstacle c d dl dr h.1 h.2]
    by_cases hlr : dl > dr <;>
      simp only [hlr, if_true, if_false, delay, setServoAngle, stop_eq, turnLeft_eq,
        turnRight_eq, sampled_eq, emit_eq_record, record_record, record_showSymbols,
        record_speed, record_debug] <;>
      exact ⟨_, rfl⟩
  · exact ⟨_, by rw [avoid_clear c d dl dr (by omega), goForward_eq, sampled_eq, record_record]⟩

theorem handleRemoteControl_record (c : Car) (rc : Remote) :
    ∃ t, handleRemoteControl c rc = record c t := by
  unfold handleRemoteControl
  split_ifs <;>
    simp only [goForward_eq, goBackward_eq, turnLeft_eq, turnRight_eq, stop_eq, delay,
      emit_eq_record, record_record] <;>
    exact ⟨_, rfl⟩

theorem modeDispatch_record (c : Car) (i : Inputs) : ∃ t, modeDispatch c i = record c t := by
  unfold modeDispatch
  split_ifs
  · exact ⟨_, by rw [stop_eq, serialPrintln, emit_eq_record, record_record]⟩
  · exact enableLineTracking_record c _ _ _
  · exact enableAvoidObstacles_record c _ _ _
  · exact enableFollowMovingObjects_record c _
  · exact ⟨[], (record_nil c).symm⟩

theorem enableBluetoothControl_eq (c : Car) (i : Inputs) :
    enableBluetoothControl c i =
      modeDispatch (commandDispatch (echoed c (dispatchedByte i)) (dispatchedByte i)) i := rfl

theorem modeDispatch_speed (c : Car) (i : Inputs) : (modeDispatch c i).speed = c.speed := by
  obtain ⟨t, ht⟩ := modeDispatch_record c i
  rw [ht, record_speed]

theorem echoed_speed (c : Car) (b : Char) : (echoed c b).speed = c.speed := by
  rw [echoed_eq, record_speed]

/-! ## C5: the speed steps of the Bluetooth decoder -/

theorem commandDispatch_a_speed (c : Car) (h0 : 0 ≤ c.speed) (h1 : c.speed ≤ 255) :
    (commandDispatch c 'a').speed = min (c.speed + 10) 255 := by
  by_cases h : c.speed + 10 > 255
  · have hr : setSpeed c 255 = { c with speed := 255 } :=
      setSpeed_in_range c 255 (by decide) (by decide)
    simp [commandDispatch, SPEED_STEP, SPEED_MAX, h, hr]
    omega
  · have hr : setSpeed c (c.speed + 10) = { c with speed := c.speed + 10 } :=
      setSpeed_in_range c _ (by omega) (by simp only [SPEED_MAX]; omega)
    simp [commandDispatch, SPEED_STEP, SPEED_MAX, h, hr]
    omega

theorem commandDispatch_d_speed (c : Car) (h0 : 0 ≤ c.speed) (h1 : c.speed ≤ 255) :
    (commandDispatch c 'd').speed = max (c.speed - 10) 0 := by
  by_cases h : c.speed - 10 < 0
  · have hr : setSpeed c 0 = { c with speed := 0 } :=
      setSpeed_in_range c 0 (by decide) (by decide)
    simp [commandDispatch, SPEED_STEP, h, hr]
    omega
  · have hr : setSpeed c (c.speed - 10) = { c with speed := c.speed - 10 } :=
      setSpeed_in_range c _ (by omega) (by simp only [SPEED_MAX]; omega)
    simp [commandDispatch, SPEED_STEP, h, hr]
    omega

theorem tick_a_speed (c : Car) (i : Inputs) (h0 : 0 ≤ c.speed) (h1 : c.speed ≤ 255)
    (hi : i.serial = some 'a') :
    (enableBluetoothControl c i).speed = min (c.speed + 10) 255 := by
  have hb : dispatchedByte i = 'a' := by simp [dispatchedByte, hi]
  rw [enableBluetoothControl_eq, modeDispatch_speed, hb,
    commandDispatch_a_speed _ (by rw [echoed_speed]; exact h0) (by rw [echoed_speed]; exact h1),
    echoed_speed]

theorem tick_d_speed (c : Car) (i : Inputs) (h0 : 0 ≤ c.speed) (h1 : c.speed ≤ 255)
    (hi : i.serial = some 'd') :
    (enableBluetoothControl c i).speed = max (c.speed - 10) 0 := by
  have hb : dispatchedByte i = 'd' := by simp [dispatchedByte, hi]
  rw [enableBluetoothControl_eq, modeDispatch_speed, hb,
    commandDispatch_d_speed _ (by rw [echoed_speed]; exact h0) (by rw [echoed_speed]; exact h1),
    echoed_speed]

theorem ticks_a_speed (is : List Inputs) :
    ∀ c : Car, 0 ≤ c.speed → c.speed ≤ 255 → (∀ i ∈ is, i.serial = some 'a') →
      (ticks c is).speed = min (c.speed + 10 * (is.length : Int)) 255 := by
  induction is with
  | nil => intro c h0 h1 _; simp [ticks]; omega
  | cons i is ih =>
    intro c h0 h1 hall
    have hi := tick_a_speed c i h0 h1 (hall i (List.mem_cons_self _ _))
    have hrest := ih (enableBluetoothControl c i) (by rw [hi]; omega) (by rw [hi]; omega)
      (fun j hj => hall j (List.mem_cons_of_mem _ hj))
    have : ticks c (i :: is) = ticks (enableBluetoothControl c i) is := rfl
    rw [this, hrest, hi]
    simp only [List.length_cons, Nat.cast_add, Nat.cast_one]
    omega

theorem ticks_d_speed (is : List Inputs) :
    ∀ c : Car, 0 ≤ c.speed → c.speed ≤ 255 → (∀ i ∈ is, i.serial = some 'd') →
      (ticks c is).speed = max (c.speed - 10 * (is.length : Int)) 0 := by
  induction is with
  | nil => intro c h0 h1 _; simp [ticks]; omega
  | cons i is ih =>
    intro c h0 h1 hall
    have hi := tick_d_speed c i h0 h1 (hall i (List.mem_cons_self _ _))
    have hrest := ih (enableBluetoothControl c i) (by rw [hi]; omega) (by rw [hi]; omega)
      (fun j hj => hall j (List.mem_cons_of_mem _ hj))
    have : ticks c (i :: is) = ticks (enableBluetoothControl c i) is := rfl
    rw [this, hrest, hi]
    simp only [List.length_cons, Nat.cast_add, Nat.cast_one]
    omega

/-- C5: from a stored speed `s` with `0 ≤ s ≤ 255`, one call of `enableBluetoothControl`
that reads `'a'` leaves the speed at `min (s + 10) 255`, and one that reads `'d'` at
`max (s - 10) 0`, whatever the mode and the sensors; `n` successive calls that each read
`'a'` give `min (s + 10 n) 255`, and `n` that each read `'d'` give `max (s - 10 n) 0`; at
255 a further `'a'`, and at 0 a further `'d'`, leaves the speed as it is. -/
theorem bluetooth_speed_steps (c : Car) (h0 : 0 ≤ c.speed) (h1 : c.speed ≤ 255) :
    (∀ i : Inputs, i.serial = some 'a' →
      (enableBluetoothControl c i).speed = min (c.speed + 10) 255) ∧
    (∀ i : Inputs, i.serial = some 'd' →
      (enableBluetoothControl c i).speed = max (c.speed - 10) 0) ∧
    (∀ is : List Inputs, (∀ i ∈ is, i.serial = some 'a') →
      (ticks c is).speed = min (c.speed + 10 * (is.length : Int)) 255) ∧
    (∀ is : List Inputs, (∀ i ∈ is, i.serial = some 'd') →
      (ticks c is).speed = max (c.speed - 10 * (is.length : Int)) 0) ∧
    (c.speed = 255 → ∀ i : Inputs, i.serial = some 'a' →
      (enableBluetoothControl c i).speed = 255) ∧
    (c.speed = 0 → ∀ i : Inputs, i.serial = some 'd' →
      (enableBluetoothControl c i).speed = 0) := by
  refine ⟨fun i hi => tick_a_speed c i h0 h1 hi, fun i hi => tick_d_speed c i h0 h1 hi,
    fun is his => ticks_a_speed is c h0 h1 his, fun is his => ticks_d_speed is c h0 h1 his,
    fun hs i hi => ?_, fun hs i hi => ?_⟩
  · rw [tick_a_speed c i h0 h1 hi, hs]; decide
  · rw [tick_d_speed c i h0 h1 hi, hs]; decide

/-- C5 from the stored speed 100: one `'a'` gives 110, one `'d'` gives 90, twenty `'a'` give
255 and twenty `'d'` give 0. -/
theorem bluetooth_speed_steps_witness :
    (enableBluetoothControl exampleCar { quietInputs with serial := some 'a' }).speed =
      min (exampleCar.speed + 10) 255 ∧
    (enableBluetoothControl exampleCar { quietInputs with serial := some 'd' }).speed =
      max (exampleCar.speed - 10) 0 ∧
    (ticks exampleCar (List.replicate 20 { quietInputs with serial := some 'a' })).speed =
      min (exampleCar.speed +
        10 * ((List.replicate 20 { quietInputs with serial := some 'a' }).length : Int)) 255 ∧
    (ticks exampleCar (List.replicate 20 { quietInputs with serial := some 'd' })).speed =
      max (exampleCar.speed -
        10 * ((List.replicate 20 { quietInputs with serial := some 'd' }).length : Int)) 0 :=
  ⟨(bluetooth_speed_steps exampleCar (by decide) (by decide)).1 _ rfl,
   (bluetooth_speed_steps exampleCar (by decide) (by decide)).2.1 _ rfl,
   (bluetooth_speed_steps exampleCar (by decide) (by decide)).2.2.1 _
     (fun i hi => by rw [List.eq_of_mem_replicate hi]),
   (bluetooth_speed_steps exampleCar (by decide) (by decide)).2.2.2.1 _
     (fun i hi => by rw [List.eq_of_mem_replicate hi])⟩

/-! ## C6: mode persistence -/

theorem modeDispatch_btMode (c : Car) (i : Inputs) : (modeDispatch c i).btMode = c.btMode := by
  obtain ⟨t, ht⟩ := modeDispatch_record c i
  rw [ht, record_btMode]

theorem commandDispatch_keeps_mode (c : Car) (b : Char)
    (hb : b ∉ ['F', 'B', 'L', 'R', 'G', 'X', 'Y', 'U']) :
    (commandDispatch c b).btMode = c.btMode := by
  simp only [List.mem_cons, List.mem_singleton, List.not_mem_nil, or_false, not_or] at hb
  obtain ⟨hF, hB, hL, hR, hG, hX, hY, hU⟩ := hb
  unfold commandDispatch
  simp only [hF, hB, hL, hR, hG, hX, hY, hU, if_false]
  split_ifs <;> first
    | rfl
    | (simp only [stop_eq, serialPrintln, emit_eq_record, record_record, record_btMode])
    | (unfold setSpeed; split_ifs <;> rfl)

/-- When the byte dispatched on is none of the mode-setting bytes, a call of
`enableBluetoothControl` leaves `btMode` as it was, and runs the mode dispatch on the
state left by the byte dispatch. -/
theorem tick_keeps_mode (c : Car) (i : Inputs)
    (hb : dispatchedByte i ∉ ['F', 'B', 'L', 'R', 'G', 'X', 'Y', 'U']) :
    (enableBluetoothControl c i).btMode = c.btMode := by
  rw [enableBluetoothControl_eq, modeDispatch_btMode, commandDispatch_keeps_mode _ _ hb,
    echoed_eq, record_btMode]

/-- C6, evaluated on the code.  A call that reads `'X'` sets `BT_MODE_LINE_TRACKING`.  On
the next call no byte is available, so the local `btVal` is dispatched on without ever
having been assigned; when it holds `'Y'` the call sets `BT_MODE_AVOID` and runs
`enableAvoidObstacles`, not `enableLineTracking`.  (When it holds a byte that sets no
mode, here zero, the mode stays and line tracking runs after the `stop()` of the default
case.) -/
theorem mode_lost_on_unassigned_btVal :
    (enableBluetoothControl { exampleCar with btMode := BT_MODE_RUN }
      { quietInputs with serial := some 'X' }).btMode = BT_MODE_LINE_TRACKING ∧
    (enableBluetoothControl
      (enableBluetoothControl { exampleCar with btMode := BT_MODE_RUN }
        { quietInputs with serial := some 'X' })
      { quietInputs with serial := none, btVal := 'Y' }).btMode = BT_MODE_AVOID ∧
    enableBluetoothControl
      (enableBluetoothControl { exampleCar with btMode := BT_MODE_RUN }
        { quietInputs with serial := some 'X' })
      { quietInputs with serial := none, btVal := 'Y' } =
      enableAvoidObstacles
        { (enableBluetoothControl { exampleCar with btMode := BT_MODE_RUN }
            { quietInputs with serial := some 'X' }) with btMode := BT_MODE_AVOID } 0 0 0 ∧
    (enableBluetoothControl
      (enableBluetoothControl { exampleCar with btMode := BT_MODE_RUN }
        { quietInputs with serial := some 'X' })
      { quietInputs with serial := none, btVal := Char.ofNat 0 }).btMode =
      BT_MODE_LINE_TRACKING := by
  decide

theorem ticks_keep_mode (is : List Inputs) :
    ∀ c : Car, (∀ i ∈ is, dispatchedByte i ∉ ['F', 'B', 'L', 'R', 'G', 'X', 'Y', 'U']) →
      (ticks c is).btMode = c.btMode := by
  induction is with
  | nil => intro c _; rfl
  | cons i is ih =>
    intro c hall
    have : ticks c (i :: is) = ticks (enableBluetoothControl c i) is := rfl
    rw [this, ih _ (fun j hj => hall j (List.mem_cons_of_mem _ hj)),
      tick_keeps_mode c i (hall i (List.mem_cons_self _ _))]

theorem tick_runs_line_tracking (c : Car) (i : Inputs)
    (hm : c.btMode = BT_MODE_LINE_TRACKING)
    (hb : dispatchedByte i ∉ ['F', 'B', 'L', 'R', 'G', 'X', 'Y', 'U']) :
    enableBluetoothControl c i =
      enableLineTracking (commandDispatch (echoed c (dispatchedByte i)) (dispatchedByte i))
        i.left i.middle i.right := by
  have h : (commandDispatch (echoed c (dispatchedByte i)) (dispatchedByte i)).btMode =
      BT_MODE_LINE_TRACKING := by
    rw [commandDispatch_keeps_mode _ _ hb, echoed_eq, record_btMode, hm]
  rw [enableBluetoothControl_eq]
  simp [modeDispatch, h, BT_MODE_LINE_TRACKING, BT_MODE_ANTI_DROP]

/-! ## C7: the default case of the byte dispatch -/

theorem commandDispatch_default (c : Car) (b : Char)
    (hb : b ∉ ['F', 'B', 'L', 'R', 'a', 'd', 'S', 'G', 'X', 'Y', 'U']) :
    commandDispatch c b = stop (serialPrintln c "Default -> stop") := by
  simp only [List.mem_cons, List.mem_singleton, List.not_mem_nil, or_false, not_or] at hb
  obtain ⟨hF, hB, hL, hR, ha, hd, hS, hG, hX, hY, hU⟩ := hb
  unfold commandDispatch
  simp only [hF, hB, hL, hR, ha, hd, hS, hG, hX, hY, hU, if_false]

/-- C7: for every byte `b` outside `F B L R a d S G X Y U` and every state, a call of
`enableBluetoothControl` that reads `b` takes the default case of the byte dispatch: it
prints and calls `stop()`, and only then runs the mode dispatch.  The record of the call
holds, right after the debug report of the byte, the entries of that `stop()`: both motor
directions `LOW` and both duties 0. -/
theorem unrecognized_byte_stops (c : Car) (i : Inputs) (b : Char)
    (hb : b ∉ ['F', 'B', 'L', 'R', 'a', 'd', 'S', 'G', 'X', 'Y', 'U'])
    (hi : i.serial = some b) :
    enableBluetoothControl c i =
      modeDispatch (stop (serialPrintln (echoed c b) "Default -> stop")) i ∧
    ∃ t, (enableBluetoothControl c i).trace =
      (echoed c b).trace ++
        (.serialPrintln "Default -> stop" ::
          motionEvents .stop glyphStop c.showSymbols .LOW .LOW 0) ++ t := by
  have hd : dispatchedByte i = b := by simp [dispatchedByte, hi]
  have h1 : enableBluetoothControl c i =
      modeDispatch (stop (serialPrintln (echoed c b) "Default -> stop")) i := by
    rw [enableBluetoothControl_eq, hd, commandDispatch_default _ b hb]
  refine ⟨h1, ?_⟩
  obtain ⟨t, ht⟩ := modeDispatch_record (stop (serialPrintln (echoed c b) "Default -> stop")) i
  refine ⟨t, ?_⟩
  rw [h1, ht, stop_eq, serialPrintln, emit_eq_record, record_record, record_showSymbols,
    echoed_eq, record_showSymbols]
  simp

/-- C7 at the byte `'z'`, read in the example state. -/
theorem unrecognized_byte_stops_witness :
    enableBluetoothControl exampleCar { quietInputs with serial := some 'z' } =
      modeDispatch (stop (serialPrintln (echoed exampleCar 'z') "Default -> stop"))
        { quietInputs with serial := some 'z' } ∧
    ∃ t, (enableBluetoothControl exampleCar { quietInputs with serial := some 'z' }).trace =
      (echoed exampleCar 'z').trace ++
        (.serialPrintln "Default -> stop" ::
          motionEvents .stop glyphStop exampleCar.showSymbols .LOW .LOW 0) ++ t :=
  unrecognized_byte_stops exampleCar { quietInputs with serial := some 'z' } 'z'
    (by decide) rfl

/-! ## C8: the range of the stored speed -/

theorem setSpeed_inv (c : Car) (iSpeed : Int) (h : SpeedInRange c) :
    SpeedInRange (setSpeed c iSpeed) := by
  unfold setSpeed
  split_ifs with h0 h1
  · exact h
  · exact h
  · exact ⟨not_lt.mp h0, not_lt.mp h1⟩

theorem record_inv (c : Car) (t : List Event) (h : SpeedInRange c) :
    SpeedInRange (record c t) := h

theorem init_inv (c : Car) : SpeedInRange (init c) := by
  simp [init, pinMode, setServoAngle, SpeedInRange, setSpeed, SPEED_MAX]

theorem commandDispatch_F (c : Car) :
    commandDispatch c 'F' = goForward { c with btMode := BT_MODE_RUN } := by
  simp [commandDispatch]

theorem commandDispatch_B (c : Car) :
    commandDispatch c 'B' = goBackward { c with btMode := BT_MODE_RUN } := by
  simp [commandDispatch]

theorem commandDispatch_L (c : Car) :
    commandDispatch c 'L' = turnLeft { c with btMode := BT_MODE_RUN } := by
  simp [commandDispatch]

theorem commandDispatch_R (c : Car) :
    commandDispatch c 'R' = turnRight { c with btMode := BT_MODE_RUN } := by
  simp [commandDispatch]

theorem commandDispatch_a (c : Car) :
    commandDispatch c 'a' =
      setSpeed c (if c.speed + SPEED_STEP > SPEED_MAX then SPEED_MAX else c.speed + SPEED_STEP) := by
  simp [commandDispatch]

theorem commandDispatch_d (c : Car) :
    commandDispatch c 'd' =
      setSpeed c (if c.speed - SPEED_STEP < 0 then 0 else c.speed - SPEED_STEP) := by
  simp [commandDispatch]

theorem commandDispatch_S (c : Car) :
    commandDispatch c 'S' = stop (serialPrintln c "Stop") := by
  simp [commandDispatch]

theorem commandDispatch_G (c : Car) :
    commandDispatch c 'G' = { c with btMode := BT_MODE_ANTI_DROP } := by
  simp [commandDispatch]

theorem commandDispatch_X (c : Car) :
    commandDispatch c 'X' = { c with btMode := BT_MODE_LINE_TRACKING } := by
  simp [commandDispatch]

theorem commandDispatch_Y (c : Car) :
    commandDispatch c 'Y' = { c with btMode := BT_MODE_AVOID } := by
  simp [commandDispatch]

theorem commandDispatch_U (c : Car) :
    commandDispatch c 'U' = { c with btMode := BT_MODE_FOLLOWING } := by
  simp [commandDispatch]

/-- The byte dispatch either changes `speed` through `setSpeed`, or leaves it alone. -/
theorem commandDispatch_speed (c : Car) (b : Char) :
    (∃ v, (commandDispatch c b).speed = (setSpeed c v).speed) ∨
      (commandDispatch c b).speed = c.speed := by
  by_cases hF : b = 'F'
  · subst hF; right; rw [commandDispatch_F, goForward_eq, record_speed]
  by_cases hB : b = 'B'
  · subst hB; right; rw [commandDispatch_B, goBackward_eq, record_speed]
  by_cases hL : b = 'L'
  · subst hL; right; rw [commandDispatch_L, turnLeft_eq, record_speed]
  by_cases hR : b = 'R'
  · subst hR; right; rw [commandDispatch_R, turnRight_eq, record_speed]
  by_cases ha : b = 'a'
  · subst ha; left; exact ⟨_, by rw [commandDispatch_a]⟩
  by_cases hd : b = 'd'
  · subst hd; left; exact ⟨_, by rw [commandDispatch_d]⟩
  by_cases hS : b = 'S'
  · subst hS; right
    rw [commandDispatch_S, stop_eq, serialPrintln, emit_eq_record, record_record, record_speed]
  by_cases hG : b = 'G'
  · subst hG; right; rw [commandDispatch_G]
  by_cases hX : b = 'X'
  · subst hX; right; rw [commandDispatch_X]
  by_cases hY : b = 'Y'
  · subst hY; right; rw [commandDispatch_Y]
  by_cases hU : b = 'U'
  · subst hU; right; rw [commandDispatch_U]
  right
  rw [commandDispatch_default c b (by simp [hF, hB, hL, hR, ha, hd, hS, hG, hX, hY, hU]),
    stop_eq, serialPrintln, emit_eq_record, record_record, record_speed]

theorem commandDispatch_inv (c : Car) (b : Char) (h : SpeedInRange c) :
    SpeedInRange (commandDispatch c b) := by
  rcases commandDispatch_speed c b with ⟨v, hv⟩ | hs
  · have := setSpeed_inv c v h
    unfold SpeedInRange at this ⊢
    rw [hv]; exact this
  · unfold SpeedInRange at h ⊢
    rw [hs]; exact h

theorem enableBluetoothControl_inv (c : Car) (i : Inputs) (h : SpeedInRange c) :
    SpeedInRange (enableBluetoothControl c i) := by
  rw [enableBluetoothControl_eq]
  obtain ⟨t, ht⟩ := modeDispatch_record
    (commandDispatch (echoed c (dispatchedByte i)) (dispatchedByte i)) i
  rw [ht]
  apply record_inv
  apply commandDispatch_inv
  rw [echoed_eq]
  exact h

theorem apply_inv (c : Car) (op : Op) (h : SpeedInRange c) : SpeedInRange (op.apply c) := by
  cases op with
  | setSpeed iSpeed => exact setSpeed_inv c iSpeed h
  | setDebug dbg => exact h
  | setDistanceUnit unit => exact h
  | setShowSymbols iShow => exact h
  | setServoAngle iAngle => exact h
  | goForward => simp only [Op.apply, goForward_eq]; exact h
  | goForwardSpeed iSpeed => simp only [Op.apply, goForwardSpeed_eq]; exact h
  | goBackward => simp only [Op.apply, goBackward_eq]; exact h
  | goBackwardSpeed iSpeed => simp only [Op.apply, goBackwardSpeed_eq]; exact h
  | turnLeft => simp only [Op.apply, turnLeft_eq]; exact h
  | turnLeftSpeed iSpeed => simp only [Op.apply, turnLeftSpeed_eq]; exact h
  | turnRight => simp only [Op.apply, turnRight_eq]; exact h
  | turnRightSpeed iSpeed => simp only [Op.apply, turnRightSpeed_eq]; exact h
  | stop => simp only [Op.apply, stop_eq]; exact h
  | displayLeft => exact h
  | displayRight => exact h
  | displayForward => exact h
  | displayBackward => exact h
  | displayStop => exact h
  | enableLineTracking l m r =>
    obtain ⟨t, ht⟩ := enableLineTracking_record c l m r
    simp only [Op.apply, ht]; exact h
  | enableFollowMovingObjects d =>
    obtain ⟨t, ht⟩ := enableFollowMovingObjects_record c d
    simp only [Op.apply, ht]; exact h
  | enableAvoidObstacles d dl dr =>
    obtain ⟨t, ht⟩ := enableAvoidObstacles_record c d dl dr
    simp only [Op.apply, ht]; exact h
  | handleRemoteControl rc =>
    obtain ⟨t, ht⟩ := handleRemoteControl_record c rc
    simp only [Op.apply, ht]; exact h
  | enableBluetoothControl i => exact enableBluetoothControl_inv c i h

theorem run_inv (ops : List Op) : ∀ c : Car, SpeedInRange c → SpeedInRange (run c ops) := by
  induction ops with
  | nil => intro c h; exact h
  | cons op ops ih => intro c h; exact ih _ (apply_inv c op h)

/-- C8: `init` leaves the stored speed at 0, whatever the state of the object before;
every public call keeps a stored speed that lies in [0, 255] inside [0, 255]; hence after
`init` and any finite sequence of public calls (with any arguments, bytes and sensor
readings, an unassigned `btVal` included) the stored speed lies in [0, 255]. -/
theorem speed_always_in_range :
    (∀ c0 : Car, (init c0).speed = 0) ∧
    (∀ (c : Car) (op : Op), 0 ≤ c.speed ∧ c.speed ≤ 255 →
      0 ≤ (op.apply c).speed ∧ (op.apply c).speed ≤ 255) ∧
    (∀ (c0 : Car) (ops : List Op),
      0 ≤ (run (init c0) ops).speed ∧ (run (init c0) ops).speed ≤ 255) := by
  refine ⟨fun c0 => ?_, fun c op h => apply_inv c op h, fun c0 ops => run_inv ops _ (init_inv c0)⟩
  simp [init, pinMode, setServoAngle, setSpeed, SPEED_MAX]

/-- C8 on the example state: a call `setSpeed(300)` made at speed 100 keeps the speed in
range. -/
theorem speed_always_in_range_witness :
    0 ≤ (Op.apply exampleCar (.setSpeed 300)).speed ∧
    (Op.apply exampleCar (.setSpeed 300)).speed ≤ 255 :=
  speed_always_in_range.2.1 exampleCar (.setSpeed 300) (by decide)

/-! ## C9: motion calls per tick -/

theorem callCount_record (c : Car) (t : List Event) :
    callCount (record c t) = callCount c + (motionCalls t).length := by
  simp [callCount, motionCalls_append]

theorem callCount_sampled (c : Car) (label : String) (d : Int) :
    callCount (sampled c label d) = callCount c := by
  simp [callCount, motionCalls_sampled]

theorem callCount_echoed (c : Car) (b : Char) : callCount (echoed c b) = callCount c := by
  cases h : c.debug <;> simp [echoed_eq, h, callCount_record, motionCalls, record_nil]

theorem callCount_emit (c : Car) (e : Event) (h : ∀ m, e ≠ .enter m) :
    callCount (emit c e) = callCount c := by
  rw [emit_eq_record, callCount_record]
  cases e <;> simp_all [motionCalls]

theorem callCount_delay (c : Car) (ms : Int) : callCount (delay c ms) = callCount c :=
  callCount_emit c _ (by intro m; simp)

theorem callCount_setServoAngle (c : Car) (a : Int) :
    callCount (setServoAngle c a) = callCount c :=
  callCount_emit c _ (by intro m; simp)

theorem callCount_serialPrintln (c : Car) (s : String) :
    callCount (serialPrintln c s) = callCount c :=
  callCount_emit c _ (by intro m; simp)

theorem callCount_goForward (c : Car) : callCount (goForward c) = callCount c + 1 := by
  rw [goForward_eq, callCount_record, motionCalls_motionEvents]; rfl

theorem callCount_goForwardSpeed (c : Car) (v : Int) :
    callCount (goForwardSpeed c v) = callCount c + 1 := by
  rw [goForwardSpeed_eq, callCount_record, motionCalls_motionEvents]; rfl

theorem callCount_goBackward (c : Car) : callCount (goBackward c) = callCount c + 1 := by
  rw [goBackward_eq, callCount_record, motionCalls_motionEvents]; rfl

theorem callCount_turnLeft (c : Car) : callCount (turnLeft c) = callCount c + 1 := by
  rw [turnLeft_eq, callCount_record, motionCalls_motionEvents]; rfl

theorem callCount_turnLeftSpeed (c : Car) (v : Int) :
    callCount (turnLeftSpeed c v) = callCount c + 1 := by
  rw [turnLeftSpeed_eq, callCount_record, motionCalls_motionEvents]; rfl

theorem callCount_turnRight (c : Car) : callCount (turnRight c) = callCount c + 1 := by
  rw [turnRight_eq, callCount_record, motionCalls_motionEvents]; rfl

theorem callCount_turnRightSpeed (c : Car) (v : Int) :
    callCount (turnRightSpeed c v) = callCount c + 1 := by
  rw [turnRightSpeed_eq, callCount_record, motionCalls_motionEvents]; rfl

theorem callCount_stop (c : Car) : callCount (stop c) = callCount c + 1 := by
  rw [stop_eq, callCount_record, motionCalls_motionEvents]; rfl

theorem callCount_follow (c : Car) (d : Int) :
    callCount (enableFollowMovingObjects c d) = callCount c + 1 := by
  rcases lt_or_le d 8 with h8 | h8
  · rw [follow_lt8 c d h8, callCount_goBackward, callCount_sampled]
  rcases lt_or_le d 13 with h13 | h13
  · rw [follow_dead_zone c d h8 h13, callCount_stop, callCount_sampled]
  rcases lt_or_le d 35 with h35 | h35
  · rw [follow_band c d h13 h35, callCount_goForward, callCount_sampled]
  · rw [follow_lost c d h35, callCount_stop, callCount_sampled]

theorem callCount_lineTracking_one (c : Car) (l m r : Int)
    (h : m = 1 ∨ (l = 1 ∧ r = 0) ∨ (l = 0 ∧ r = 1)) :
    callCount (enableLineTracking c l m r) = callCount c + 1 := by
  unfold enableLineTracking
  split_ifs with h1 h2 h3
  · exact callCount_goForwardSpeed c 100
  · exact callCount_turnLeftSpeed c 200
  · exact callCount_turnRightSpeed c 200
  · exfalso
    rcases h with h | h | h
    · exact h1 h
    · exact h2 h
    · exact h3 h

theorem callCount_lineTracking_two (c : Car) (l m r : Int)
    (h : ¬ (m = 1 ∨ (l = 1 ∧ r = 0) ∨ (l = 0 ∧ r = 1))) :
    callCount (enableLineTracking c l m r) = callCount c + 2 := by
  simp only [not_or] at h
  obtain ⟨h1, h2, h3⟩ := h
  unfold enableLineTracking
  rw [if_neg h1, if_neg h2, if_neg h3]
  show callCount (stop (delay (goForwardSpeed c 70) 9)) = callCount c + 2
  rw [callCount_stop, callCount_delay, callCount_goForwardSpeed]

theorem callCount_avoid_obstacle (c : Car) (d dl dr : Int) (h0 : 0 < d) (h20 : d < 20) :
    callCount (enableAvoidObstacles c d dl dr) = callCount c + 2 := by
  rw [avoid_obstacle c d dl dr h0 h20, callCount_delay, callCount_setServoAngle]
  by_cases hlr : dl > dr
  · simp only [hlr, if_true]
    rw [callCount_turnLeft, callCount_delay, callCount_sampled, callCount_delay,
      callCount_setServoAngle, callCount_delay, callCount_sampled, callCount_delay,
      callCount_setServoAngle, callCount_delay, callCount_stop, callCount_sampled]
  · simp only [hlr, if_false]
    rw [callCount_turnRight, callCount_delay, callCount_sampled, callCount_delay,
      callCount_setServoAngle, callCount_delay, callCount_sampled, callCount_delay,
      callCount_setServoAngle, callCount_delay, callCount_stop, callCount_sampled]

theorem callCount_avoid_clear (c : Car) (d dl dr : Int) (h : d ≤ 0 ∨ 20 ≤ d) :
    callCount (enableAvoidObstacles c d dl dr) = callCount c + 1 := by
  rw [avoid_clear c d dl dr h, callCount_goForward, callCount_sampled]

theorem callCount_remote (c : Car) (rc : Remote) :
    callCount (handleRemoteControl c rc) ≤ callCount c + 1 := by
  unfold handleRemoteControl
  split_ifs <;>
    simp only [callCount_delay, callCount_emit _ Event.rcResume (by intro m; simp),
      callCount_goForward, callCount_goBackward, callCount_turnLeft, callCount_turnRight,
      callCount_stop] <;>
    omega

theorem callCount_commandDispatch (c : Car) (b : Char) :
    callCount (commandDispatch c b) ≤ callCount c + 1 := by
  have hmode : ∀ k, callCount { c with btMode := k } = callCount c := fun _ => rfl
  have hset : ∀ v, callCount (setSpeed c v) = callCount c := by
    intro v; unfold setSpeed; split_ifs <;> rfl
  by_cases hF : b = 'F'
  · subst hF; rw [commandDispatch_F, callCount_goForward, hmode]
  by_cases hB : b = 'B'
  · subst hB; rw [commandDispatch_B, callCount_goBackward, hmode]
  by_cases hL : b = 'L'
  · subst hL; rw [commandDispatch_L, callCount_turnLeft, hmode]
  by_cases hR : b = 'R'
  · subst hR; rw [commandDispatch_R, callCount_turnRight, hmode]
  by_cases ha : b = 'a'
  · subst ha; rw [commandDispatch_a, hset]; omega
  by_cases hd : b = 'd'
  · subst hd; rw [commandDispatch_d, hset]; omega
  by_cases hS : b = 'S'
  · subst hS; rw [commandDispatch_S, callCount_stop, callCount_serialPrintln]
  by_cases hG : b = 'G'
  · subst hG; rw [commandDispatch_G, hmode]; omega
  by_cases hX : b = 'X'
  · subst hX; rw [commandDispatch_X, hmode]; omega
  by_cases hY : b = 'Y'
  · subst hY; rw [commandDispatch_Y, hmode]; omega
  by_cases hU : b = 'U'
  · subst hU; rw [commandDispatch_U, hmode]; omega
  rw [commandDispatch_default c b (by simp [hF, hB, hL, hR, ha, hd, hS, hG, hX, hY, hU]),
    callCount_stop, callCount_serialPrintln]

theorem callCount_lineTracking_le (c : Car) (l m r : Int) :
    callCount (enableLineTracking c l m r) ≤ callCount c + 2 := by
  by_cases h : m = 1 ∨ (l = 1 ∧ r = 0) ∨ (l = 0 ∧ r = 1)
  · rw [callCount_lineTracking_one c l m r h]; omega
  · rw [callCount_lineTracking_two c l m r h]

theorem callCount_avoid_le (c : Car) (d dl dr : Int) :
    callCount (enableAvoidObstacles c d dl dr) ≤ callCount c + 2 := by
  by_cases h : 0 < d ∧ d < 20
  · rw [callCount_avoid_obstacle c d dl dr h.1 h.2]
  · rw [callCount_avoid_clear c d dl dr (by omega)]; omega

theorem callCount_modeDispatch (c : Car) (i : Inputs) :
    callCount (modeDispatch c i) ≤ callCount c + 2 := by
  unfold modeDispatch
  split_ifs
  · rw [callCount_stop, callCount_serialPrintln]; omega
  · exact callCount_lineTracking_le c _ _ _
  · exact callCount_avoid_le c _ _ _
  · rw [callCount_follow]; omega
  · omega

theorem callCount_bluetooth (c : Car) (i : Inputs) :
    callCount (enableBluetoothControl c i) ≤ callCount c + 3 := by
  rw [enableBluetoothControl_eq]
  have h1 := callCount_modeDispatch
    (commandDispatch (echoed c (dispatchedByte i)) (dispatchedByte i)) i
  have h2 := callCount_commandDispatch (echoed c (dispatchedByte i)) (dispatchedByte i)
  rw [callCount_echoed] at h2
  omega

/-- C9 fails as stated: with all three track sensors reading 0, one call of
`enableLineTracking` enters two motion primitives, `goForward` then `stop`, which is more
than one; one call of `enableAvoidObstacles` at the readings (15, 30, 10) enters `stop`
then `turnLeft`; and one call of `enableBluetoothControl` that reads `'S'` in mode
`BT_MODE_LINE_TRACKING` with the sensors at 0 enters `stop`, `goForward`, `stop`. -/
theorem line_lost_issues_two_motion_calls :
    motionCalls (enableLineTracking exampleCar 0 0 0).trace = [.goForward, .stop] ∧
    ¬ (callCount (enableLineTracking exampleCar 0 0 0) ≤ callCount exampleCar + 1) ∧
    motionCalls (enableAvoidObstacles exampleCar 15 30 10).trace = [.stop, .turnLeft] ∧
    motionCalls (enableBluetoothControl exampleCar
      { quietInputs with serial := some 'S' }).trace = [.stop, .goForward, .stop] := by
  decide

theorem lineTracking_lost (c : Car) (l m r : Int)
    (h : ¬ (m = 1 ∨ (l = 1 ∧ r = 0) ∨ (l = 0 ∧ r = 1))) :
    enableLineTracking c l m r = stop (delay (goForwardSpeed c 70) 9) := by
  simp only [not_or] at h
  obtain ⟨h1, h2, h3⟩ := h
  unfold enableLineTracking
  rw [if_neg h1, if_neg h2, if_neg h3]

theorem motionCalls_lineTracking_lost (c : Car) (l m r : Int)
    (h : ¬ (m = 1 ∨ (l = 1 ∧ r = 0) ∨ (l = 0 ∧ r = 1))) :
    motionCalls (enableLineTracking c l m r).trace =
      motionCalls c.trace ++ [.goForward, .stop] := by
  rw [lineTracking_lost c l m r h]
  simp only [stop_eq, delay, goForwardSpeed_eq, emit_eq_record, record_record, record_trace,
    motionCalls_append, motionCalls_motionEvents]
  simp [motionCalls]

theorem motionCalls_lineTracking_one (c : Car) (l m r : Int)
    (h : m = 1 ∨ (l = 1 ∧ r = 0) ∨ (l = 0 ∧ r = 1)) :
    motionCalls (enableLineTracking c l m r).trace =
      motionCalls c.trace ++
        [if m = 1 then .goForward else if l = 1 ∧ r = 0 then .turnLeft else .turnRight] := by
  by_cases h1 : m = 1
  · have e : enableLineTracking c l m r = goForwardSpeed c 100 := by
      simp [enableLineTracking, h1]
    rw [e, if_pos h1, goForwardSpeed_eq, record_trace, motionCalls_append,
      motionCalls_motionEvents]
  by_cases h2 : l = 1 ∧ r = 0
  · have e : enableLineTracking c l m r = turnLeftSpeed c 200 := by
      unfold enableLineTracking
      rw [if_neg h1, if_pos h2]
    rw [e, if_neg h1, if_pos h2, turnLeftSpeed_eq, record_trace, motionCalls_append,
      motionCalls_motionEvents]
  · have h3 : l = 0 ∧ r = 1 := by
      rcases h with h | h | h
      · exact absurd h h1
      · exact absurd h h2
      · exact h
    have e : enableLineTracking c l m r = turnRightSpeed c 200 := by
      unfold enableLineTracking
      rw [if_neg h1, if_neg h2, if_pos h3]
    rw [e, if_neg h1, if_neg h2, turnRightSpeed_eq, record_trace, motionCalls_append,
      motionCalls_motionEvents]

theorem motionCalls_avoid_obstacle (c : Car) (d dl dr : Int) (h0 : 0 < d) (h20 : d < 20) :
    motionCalls (enableAvoidObstacles c d dl dr).trace =
      motionCalls c.trace ++ [.stop, if dl > dr then .turnLeft else .turnRight] := by
  rw [avoid_obstacle c d dl dr h0 h20]
  by_cases hlr : dl > dr <;>
    simp only [hlr, if_true, if_false, delay, setServoAngle, stop_eq, turnLeft_eq,
      turnRight_eq, emit_eq_record, record_record, record_trace, motionCalls_append,
      motionCalls_motionEvents, motionCalls_sampled] <;>
    simp [motionCalls]

theorem motionCalls_avoid_clear (c : Car) (d dl dr : Int) (h : d ≤ 0 ∨ 20 ≤ d) :
    motionCalls (enableAvoidObstacles c d dl dr).trace =
      motionCalls c.trace ++ [.goForward] := by
  rw [avoid_clear c d dl dr h, goForward_eq, record_trace, motionCalls_append,
    motionCalls_motionEvents, motionCalls_sampled]

theorem commandDispatch_trace (c : Car) (b : Char) :
    ∃ t, (commandDispatch c b).trace = c.trace ++ t := by
  have hset : ∀ v, (setSpeed c v).trace = c.trace ++ [] := by
    intro v; unfold setSpeed; split_ifs <;> simp
  by_cases hF : b = 'F'
  · subst hF; exact ⟨_, by rw [commandDispatch_F, goForward_eq, record_trace]⟩
  by_cases hB : b = 'B'
  · subst hB; exact ⟨_, by rw [commandDispatch_B, goBackward_eq, record_trace]⟩
  by_cases hL : b = 'L'
  · subst hL; exact ⟨_, by rw [commandDispatch_L, turnLeft_eq, record_trace]⟩
  by_cases hR : b = 'R'
  · subst hR; exact ⟨_, by rw [commandDispatch_R, turnRight_eq, record_trace]⟩
  by_cases ha : b = 'a'
  · subst ha; exact ⟨[], by rw [commandDispatch_a, hset]⟩
  by_cases hd : b = 'd'
  · subst hd; exact ⟨[], by rw [commandDispatch_d, hset]⟩
  by_cases hS : b = 'S'
  · subst hS
    exact ⟨_, by rw [commandDispatch_S, stop_eq, serialPrintln, emit_eq_record, record_record,
      record_trace]⟩
  by_cases hG : b = 'G'
  · subst hG; exact ⟨[], by rw [commandDispatch_G]; simp⟩
  by_cases hX : b = 'X'
  · subst hX; exact ⟨[], by rw [commandDispatch_X]; simp⟩
  by_cases hY : b = 'Y'
  · subst hY; exact ⟨[], by rw [commandDispatch_Y]; simp⟩
  by_cases hU : b = 'U'
  · subst hU; exact ⟨[], by rw [commandDispatch_U]; simp⟩
  exact ⟨_, by
    rw [commandDispatch_default c b (by simp [hF, hB, hL, hR, ha, hd, hS, hG, hX, hY, hU]),
      stop_eq, serialPrintln, emit_eq_record, record_record, record_trace]⟩

theorem enableBluetoothControl_trace (c : Car) (i : Inputs) :
    ∃ t, (enableBluetoothControl c i).trace = c.trace ++ t := by
  obtain ⟨t2, h2⟩ := modeDispatch_record
    (commandDispatch (echoed c (dispatchedByte i)) (dispatchedByte i)) i
  obtain ⟨t1, h1⟩ := commandDispatch_trace (echoed c (dispatchedByte i)) (dispatchedByte i)
  refine ⟨(if c.debug then
      [.serialPrint "btVal: ", .serialPrintln (String.singleton (dispatchedByte i))] else [])
      ++ t1 ++ t2, ?_⟩
  rw [enableBluetoothControl_eq, h2, record_trace, h1, echoed_eq, record_trace]
  simp [List.append_assoc]

/-- A call that only appends to the record and raises the count of motion calls by at
most `n` appends at most `n` motion calls to those made before. -/
theorem appended_calls (c c' : Car) (n : Nat) (hr : ∃ t, c'.trace = c.trace ++ t)
    (hc : callCount c' ≤ callCount c + n) :
    ∃ ms, motionCalls c'.trace = motionCalls c.trace ++ ms ∧ ms.length ≤ n := by
  obtain ⟨t, ht⟩ := hr
  refine ⟨motionCalls t, by rw [ht, motionCalls_append], ?_⟩
  unfold callCount at hc
  rw [ht, motionCalls_append, List.length_append] at hc
  omega

theorem follow_one_call (c : Car) (d : Int) :
    ∃ m, motionCalls (enableFollowMovingObjects c d).trace = motionCalls c.trace ++ [m] := by
  rcases lt_or_le d 8 with h8 | h8
  · exact ⟨.goBackward, by
      rw [follow_lt8 c d h8, goBackward_eq, record_trace, motionCalls_append,
        motionCalls_motionEvents, motionCalls_sampled]⟩
  rcases lt_or_le d 13 with h13 | h13
  · exact ⟨.stop, by
      rw [follow_dead_zone c d h8 h13, stop_eq, record_trace, motionCalls_append,
        motionCalls_motionEvents, motionCalls_sampled]⟩
  rcases lt_or_le d 35 with h35 | h35
  · exact ⟨.goForward, by
      rw [follow_band c d h13 h35, goForward_eq, record_trace, motionCalls_append,
        motionCalls_motionEvents, motionCalls_sampled]⟩
  · exact ⟨.stop, by
      rw [follow_lost c d h35, stop_eq, record_trace, motionCalls_append,
        motionCalls_motionEvents, motionCalls_sampled]⟩

theorem remote_calls (c : Car) (rc : Remote) :
    ∃ ms, motionCalls (handleRemoteControl c rc).trace = motionCalls c.trace ++ ms ∧
      ms.length ≤ 1 := by
  obtain ⟨t, ht⟩ := handleRemoteControl_record c rc
  exact appended_calls c _ 1 ⟨t, by rw [ht, record_trace]⟩ (callCount_remote c rc)

theorem bluetooth_calls (c : Car) (i : Inputs) :
    ∃ ms, motionCalls (enableBluetoothControl c i).trace = motionCalls c.trace ++ ms ∧
      ms.length ≤ 3 :=
  appended_calls c _ 3 (enableBluetoothControl_trace c i) (callCount_bluetooth c i)

/-- C9 as amended.  One call of `enableFollowMovingObjects` enters exactly one motion
primitive and one call of `handleRemoteControl` at most one.  One call of
`enableLineTracking` enters one motion primitive when `middle = 1` (`goForward`), or
`left = 1` and `right = 0` (`turnLeft`), or `left = 0` and `right = 1` (`turnRight`);
otherwise it is `goForward(70)`, `delay(9)`, `stop()` and enters two, `goForward` then
`stop`, in that order.  One call of `enableAvoidObstacles` with `0 < d < 20` enters two,
`stop` and then the turn (`turnLeft` when `dl > dr`, `turnRight` otherwise), with the
sweep of the source between them; otherwise it is the sample followed by `goForward()`
and enters one.  One call of `enableBluetoothControl` is the byte dispatch followed by
the mode dispatch; the byte dispatch enters at most one motion primitive, the mode
dispatch at most two, the whole call at most three.  Each of these calls keeps the
motion calls made before it and appends its own after them. -/
theorem motion_calls_per_tick (c : Car) :
    (∀ d : Int, callCount (enableFollowMovingObjects c d) = callCount c + 1) ∧
    (∀ rc : Remote, callCount (handleRemoteControl c rc) ≤ callCount c + 1) ∧
    (∀ l m r : Int, (m = 1 ∨ (l = 1 ∧ r = 0) ∨ (l = 0 ∧ r = 1)) →
      callCount (enableLineTracking c l m r) = callCount c + 1 ∧
      motionCalls (enableLineTracking c l m r).trace =
        motionCalls c.trace ++
          [if m = 1 then .goForward else if l = 1 ∧ r = 0 then .turnLeft else .turnRight]) ∧
    (∀ l m r : Int, ¬ (m = 1 ∨ (l = 1 ∧ r = 0) ∨ (l = 0 ∧ r = 1)) →
      callCount (enableLineTracking c l m r) = callCount c + 2 ∧
      motionCalls (enableLineTracking c l m r).trace =
        motionCalls c.trace ++ [.goForward, .stop] ∧
      enableLineTracking c l m r = stop (delay (goForwardSpeed c 70) 9)) ∧
    (∀ d dl dr : Int, 0 < d ∧ d < 20 →
      callCount (enableAvoidObstacles c d dl dr) = callCount c + 2 ∧
      motionCalls (enableAvoidObstacles c d dl dr).trace =
        motionCalls c.trace ++ [.stop, if dl > dr then .turnLeft else .turnRight] ∧
      enableAvoidObstacles c d dl dr =
        delay (setServoAngle
          ((if dl > dr then turnLeft else turnRight)
            (delay (sampled
              (delay (setServoAngle
                (delay (sampled
                  (delay (setServoAngle (delay (stop (sampled c "Distance: " d)) 100) 180) 500)
                  "Distance left: " dl) 100) 0) 500)
              "Distance right: " dr) 100)) 90) 300) ∧
    (∀ d dl dr : Int, ¬ (0 < d ∧ d < 20) →
      callCount (enableAvoidObstacles c d dl dr) = callCount c + 1 ∧
      motionCalls (enableAvoidObstacles c d dl dr).trace =
        motionCalls c.trace ++ [.goForward] ∧
      enableAvoidObstacles c d dl dr = goForward (sampled c "Distance: " d)) ∧
    (∀ b : Char, callCount (commandDispatch c b) ≤ callCount c + 1) ∧
    (∀ i : Inputs, callCount (modeDispatch c i) ≤ callCount c + 2) ∧
    (∀ i : Inputs, callCount (enableBluetoothControl c i) ≤ callCount c + 3) ∧
    (∀ i : Inputs,
      enableBluetoothControl c i =
        modeDispatch (commandDispatch (echoed c (dispatchedByte i)) (dispatchedByte i)) i ∧
      callCount (echoed c (dispatchedByte i)) = callCount c) ∧
    (∀ d : Int, ∃ m,
      motionCalls (enableFollowMovingObjects c d).trace = motionCalls c.trace ++ [m]) ∧
    (∀ rc : Remote, ∃ ms,
      motionCalls (handleRemoteControl c rc).trace = motionCalls c.trace ++ ms ∧
      ms.length ≤ 1) ∧
    (∀ i : Inputs, ∃ ms,
      motionCalls (enableBluetoothControl c i).trace = motionCalls c.trace ++ ms ∧
      ms.length ≤ 3) :=
  ⟨callCount_follow c, callCount_remote c,
   fun l m r h => ⟨callCount_lineTracking_one c l m r h, motionCalls_lineTracking_one c l m r h⟩,
   fun l m r h => ⟨callCount_lineTracking_two c l m r h, motionCalls_lineTracking_lost c l m r h,
     lineTracking_lost c l m r h⟩,
   fun d dl dr h => ⟨callCount_avoid_obstacle c d dl dr h.1 h.2,
     motionCalls_avoid_obstacle c d dl dr h.1 h.2, avoid_obstacle c d dl dr h.1 h.2⟩,
   fun d dl dr h => ⟨callCount_avoid_clear c d dl dr (by omega),
     motionCalls_avoid_clear c d dl dr (by omega), avoid_clear c d dl dr (by omega)⟩,
   callCount_commandDispatch c, callCount_modeDispatch c, callCount_bluetooth c,
   fun i => ⟨enableBluetoothControl_eq c i, callCount_echoed c _⟩,
   follow_one_call c, remote_calls c, bluetooth_calls c⟩

/-- The amended C9 on the example state: readings (0,1,0), (1,0,0) and (1,0,1) of the track
sensors, and ranger readings (15, 30, 10), (15, 10, 30) and 25. -/
theorem motion_calls_per_tick_witness :
    motionCalls (enableLineTracking exampleCar 0 1 0).trace =
      motionCalls exampleCar.trace ++
        [if (1 : Int) = 1 then .goForward
         else if (0 : Int) = 1 ∧ (0 : Int) = 0 then .turnLeft else .turnRight] ∧
    motionCalls (enableLineTracking exampleCar 1 0 0).trace =
      motionCalls exampleCar.trace ++
        [if (0 : Int) = 1 then .goForward
         else if (1 : Int) = 1 ∧ (0 : Int) = 0 then .turnLeft else .turnRight] ∧
    (callCount (enableLineTracking exampleCar 1 0 1) = callCount exampleCar + 2 ∧
      motionCalls (enableLineTracking exampleCar 1 0 1).trace =
        motionCalls exampleCar.trace ++ [.goForward, .stop] ∧
      enableLineTracking exampleCar 1 0 1 = stop (delay (goForwardSpeed exampleCar 70) 9)) ∧
    motionCalls (enableAvoidObstacles exampleCar 15 30 10).trace =
      motionCalls exampleCar.trace ++
        [.stop, if (30 : Int) > 10 then .turnLeft else .turnRight] ∧
    motionCalls (enableAvoidObstacles exampleCar 15 10 30).trace =
      motionCalls exampleCar.trace ++
        [.stop, if (10 : Int) > 30 then .turnLeft else .turnRight] ∧
    motionCalls (enableAvoidObstacles exampleCar 25 30 10).trace =
      motionCalls exampleCar.trace ++ [.goForward] :=
  ⟨((motion_calls_per_tick exampleCar).2.2.1 0 1 0 (by decide)).2,
   ((motion_calls_per_tick exampleCar).2.2.1 1 0 0 (by decide)).2,
   (motion_calls_per_tick exampleCar).2.2.2.1 1 0 1 (by decide),
   ((motion_calls_per_tick exampleCar).2.2.2.2.1 15 30 10 (by decide)).2.1,
   ((motion_calls_per_tick exampleCar).2.2.2.2.1 15 10 30 (by decide)).2.1,
   ((motion_calls_per_tick exampleCar).2.2.2.2.2.1 25 30 10 (by decide)).2.1⟩

/-! ## C10: negative readings in `enableFollowMovingObjects` -/

/-- C10 fails as stated: at the reading -1 one call of `enableFollowMovingObjects` is the
sample followed by `goBackward()`; the one motion primitive it enters is `goBackward`,
not `stop`. -/
theorem follow_reverses_at_minus_one :
    enableFollowMovingObjects exampleCar (-1) =
      goBackward (sampled exampleCar "Distance: " (-1)) ∧
    motionCalls (enableFollowMovingObjects exampleCar (-1)).trace = [.goBackward] ∧
    enableFollowMovingObjects exampleCar (-1) ≠ stop (sampled exampleCar "Distance: " (-1)) := by
  decide

/-- C10 as amended: for every negative distance reading `d`, one call of
`enableFollowMovingObjects` is the sample followed by `goBackward()` at the stored speed
(the first rung `distance < 8` of the ladder takes every negative reading); the one motion
primitive it enters is `goBackward`. -/
theorem negative_reading_goes_backward (c : Car) (d : Int) (h : d < 0) :
    enableFollowMovingObjects c d = goBackward (sampled c "Distance: " d) ∧
    motionCalls (enableFollowMovingObjects c d).trace = motionCalls c.trace ++ [.goBackward] ∧
    (sampled c "Distance: " d).speed = c.speed := by
  have h8 : d < 8 := by omega
  refine ⟨follow_lt8 c d h8, ?_, ?_⟩
  · rw [follow_lt8 c d h8]
    simp [goBackward_eq, motionCalls_append, motionCalls_motionEvents, motionCalls_sampled]
  · simp [sampled_eq]

/-- The amended C10 at the reading -3. -/
theorem negative_reading_goes_backward_witness :
    enableFollowMovingObjects exampleCar (-3) =
      goBackward (sampled exampleCar "Distance: " (-3)) ∧
    motionCalls (enableFollowMovingObjects exampleCar (-3)).trace =
      motionCalls exampleCar.trace ++ [.goBackward] ∧
    (sampled exampleCar "Distance: " (-3)).speed = exampleCar.speed :=
  negative_reading_goes_backward exampleCar (-3) (by decide)

/-! ## C11: the middle sensor under the documented encoding -/

/-- C11, evaluated on the code.  Under the documented encoding the reading 0 of the middle
sensor means that it detects the line.  With the readings (1, 0, 0) one call of
`enableLineTracking` is `turnLeft(200)`, with (0, 0, 1) it is `turnRight(200)`, and with
(0, 0, 0) it is `goForward(70)`, `delay(9)`, `stop()`; none of them is `goForward(100)`,
which the call makes when the middle sensor reads 1, that is when it detects nothing. -/
theorem middle_on_line_is_not_forward_100 :
    lineDetected 0 ∧ ¬ lineDetected 1 ∧
    enableLineTracking exampleCar 1 0 0 = turnLeftSpeed exampleCar 200 ∧
    enableLineTracking exampleCar 0 0 1 = turnRightSpeed exampleCar 200 ∧
    enableLineTracking exampleCar 0 0 0 = stop (delay (goForwardSpeed exampleCar 70) 9) ∧
    enableLineTracking exampleCar 1 0 0 ≠ goForwardSpeed exampleCar 100 ∧
    enableLineTracking exampleCar 0 0 1 ≠ goForwardSpeed exampleCar 100 ∧
    enableLineTracking exampleCar 0 0 0 ≠ goForwardSpeed exampleCar 100 ∧
    enableLineTracking exampleCar 0 1 0 = goForwardSpeed exampleCar 100 := by
  unfold lineDetected
  decide

/-! ## C12: the motion primitives -/

/-- C12: every motion primitive appends to the record, in this order, its entry, the frame
of its own glyph exactly when `showSymbols` is set, the direction and the duty of the left
motor, and the direction and the duty of the right motor, and changes no member of the
object.  Both duties are the stored speed for the forms without argument, the argument `v`
for the forms with one, and 0 for `stop`; the directions (left, right) are (`HIGH`, `HIGH`)
for `goForward`, (`LOW`, `LOW`) for `goBackward`, (`LOW`, `HIGH`) for `turnLeft`,
(`HIGH`, `LOW`) for `turnRight`, where `HIGH` is the forward direction of a motor.  The
frame is the one the matching `display...` function sends. -/
theorem motion_primitives_contract (c : Car) (v : Int) :
    goForward c =
      record c (motionEvents .goForward glyphForward c.showSymbols .HIGH .HIGH c.speed) ∧
    goForwardSpeed c v =
      record c (motionEvents .goForward glyphForward c.showSymbols .HIGH .HIGH v) ∧
    goBackward c =
      record c (motionEvents .goBackward glyphBackward c.showSymbols .LOW .LOW c.speed) ∧
    goBackwardSpeed c v =
      record c (motionEvents .goBackward glyphBackward c.showSymbols .LOW .LOW v) ∧
    turnLeft c =
      record c (motionEvents .turnLeft glyphLeft c.showSymbols .LOW .HIGH c.speed) ∧
    turnLeftSpeed c v =
      record c (motionEvents .turnLeft glyphLeft c.showSymbols .LOW .HIGH v) ∧
    turnRight c =
      record c (motionEvents .turnRight glyphRight c.showSymbols .HIGH .LOW c.speed) ∧
    turnRightSpeed c v =
      record c (motionEvents .turnRight glyphRight c.showSymbols .HIGH .LOW v) ∧
    stop c = record c (motionEvents .stop glyphStop c.showSymbols .LOW .LOW 0) ∧
    (∀ (m : Motion) (g : List Nat) (l r : Level) (d : Int),
      motionEvents m g true l r d =
        [.enter m, .ledDisplay g,
         .digitalWrite .PIN_MOTOR_L_CTRL l, .analogWrite .PIN_MOTOR_L_PWM d,
         .digitalWrite .PIN_MOTOR_R_CTRL r, .analogWrite .PIN_MOTOR_R_PWM d]) ∧
    (∀ (m : Motion) (g : List Nat) (l r : Level) (d : Int),
      motionEvents m g false l r d =
        [.enter m,
         .digitalWrite .PIN_MOTOR_L_CTRL l, .analogWrite .PIN_MOTOR_L_PWM d,
         .digitalWrite .PIN_MOTOR_R_CTRL r, .analogWrite .PIN_MOTOR_R_PWM d]) ∧
    (∀ t : List Event,
      (record c t).trace = c.trace ++ t ∧ (record c t).speed = c.speed ∧
      (record c t).distanceUnit = c.distanceUnit ∧ (record c t).showSymbols = c.showSymbols ∧
      (record c t).debug = c.debug ∧ (record c t).btMode = c.btMode) ∧
    displayForward c = record c [.ledDisplay glyphForward] ∧
    displayBackward c = record c [.ledDisplay glyphBackward] ∧
    displayLeft c = record c [.ledDisplay glyphLeft] ∧
    displayRight c = record c [.ledDisplay glyphRight] ∧
    displayStop c = record c [.ledDisplay glyphStop] :=
  ⟨goForward_eq c, goForwardSpeed_eq c v, goBackward_eq c, goBackwardSpeed_eq c v,
   turnLeft_eq c, turnLeftSpeed_eq c v, turnRight_eq c, turnRightSpeed_eq c v, stop_eq c,
   fun _ _ _ _ _ => rfl, fun _ _ _ _ _ => rfl,
   fun _ => ⟨rfl, rfl, rfl, rfl, rfl, rfl⟩, rfl, rfl, rfl, rfl, rfl⟩

/-! ## C13: `'S'` and unrecognized bytes in an autonomous mode -/

theorem commandDispatch_stops (c : Car) (b : Char)
    (hb : b = 'S' ∨ b ∉ ['F', 'B', 'L', 'R', 'a', 'd', 'S', 'G', 'X', 'Y', 'U']) :
    commandDispatch c b =
      stop (serialPrintln c (if b = 'S' then "Stop" else "Default -> stop")) := by
  rcases hb with hS | hn
  · subst hS
    rw [commandDispatch_S, if_pos rfl]
  · have hS : b ≠ 'S' := by
      intro h
      apply hn
      simp [h]
    rw [commandDispatch_default c b hn, if_neg hS]

theorem modeDispatch_line (c : Car) (i : Inputs) (h : c.btMode = BT_MODE_LINE_TRACKING) :
    modeDispatch c i = enableLineTracking c i.left i.middle i.right := by
  simp [modeDispatch, h, BT_MODE_LINE_TRACKING, BT_MODE_ANTI_DROP]

theorem modeDispatch_avoid (c : Car) (i : Inputs) (h : c.btMode = BT_MODE_AVOID) :
    modeDispatch c i = enableAvoidObstacles c i.distance i.distLeft i.distRight := by
  simp [modeDispatch, h, BT_MODE_LINE_TRACKING, BT_MODE_ANTI_DROP, BT_MODE_AVOID]

theorem modeDispatch_following (c : Car) (i : Inputs) (h : c.btMode = BT_MODE_FOLLOWING) :
    modeDispatch c i = enableFollowMovingObjects c i.distance := by
  simp [modeDispatch, h, BT_MODE_LINE_TRACKING, BT_MODE_ANTI_DROP, BT_MODE_AVOID,
    BT_MODE_FOLLOWING]

theorem callCount_lineTracking_ge (c : Car) (l m r : Int) :
    callCount c + 1 ≤ callCount (enableLineTracking c l m r) := by
  by_cases h : m = 1 ∨ (l = 1 ∧ r = 0) ∨ (l = 0 ∧ r = 1)
  · rw [callCount_lineTracking_one c l m r h]
  · rw [callCount_lineTracking_two c l m r h]; omega

theorem callCount_avoid_ge (c : Car) (d dl dr : Int) :
    callCount c + 1 ≤ callCount (enableAvoidObstacles c d dl dr) := by
  by_cases h : 0 < d ∧ d < 20
  · rw [callCount_avoid_obstacle c d dl dr h.1 h.2]; omega
  · rw [callCount_avoid_clear c d dl dr (by omega)]

/-- C13: in a state whose mode is `BT_MODE_LINE_TRACKING`, `BT_MODE_AVOID` or
`BT_MODE_FOLLOWING`, a call of `enableBluetoothControl` that reads `'S'` or a byte outside
`F B L R a d S G X Y U` prints and calls `stop()` in the byte dispatch, leaves `btMode` as it
was, and then runs the controller of that mode on the state left by the `stop()`.  The
controller enters at least one motion primitive, so the last motion call of the tick is
the controller's.  In mode `BT_MODE_LINE_TRACKING` with the middle sensor reading 1, the
record of the tick ends with `goForward(100)`: both motors `HIGH` at duty 100. -/
theorem stop_byte_still_runs_controller (c : Car) (i : Inputs) (b : Char)
    (hm : c.btMode = BT_MODE_LINE_TRACKING ∨ c.btMode = BT_MODE_AVOID ∨
      c.btMode = BT_MODE_FOLLOWING)
    (hb : b = 'S' ∨ b ∉ ['F', 'B', 'L', 'R', 'a', 'd', 'S', 'G', 'X', 'Y', 'U'])
    (hi : i.serial = some b) :
    commandDispatch (echoed c b) b =
      stop (serialPrintln (echoed c b) (if b = 'S' then "Stop" else "Default -> stop")) ∧
    (enableBluetoothControl c i).btMode = c.btMode ∧
    (c.btMode = BT_MODE_LINE_TRACKING →
      enableBluetoothControl c i =
        enableLineTracking (commandDispatch (echoed c b) b) i.left i.middle i.right) ∧
    (c.btMode = BT_MODE_AVOID →
      enableBluetoothControl c i =
        enableAvoidObstacles (commandDispatch (echoed c b) b)
          i.distance i.distLeft i.distRight) ∧
    (c.btMode = BT_MODE_FOLLOWING →
      enableBluetoothControl c i =
        enableFollowMovingObjects (commandDispatch (echoed c b) b) i.distance) ∧
    callCount (commandDispatch (echoed c b) b) = callCount c + 1 ∧
    callCount (commandDispatch (echoed c b) b) + 1 ≤ callCount (enableBluetoothControl c i) ∧
    (c.btMode = BT_MODE_LINE_TRACKING → i.middle = 1 →
      (enableBluetoothControl c i).trace =
        (commandDispatch (echoed c b) b).trace ++
          (.enter .goForward :: (if c.showSymbols then [.ledDisplay glyphForward] else []) ++
            [.digitalWrite .PIN_MOTOR_L_CTRL .HIGH, .analogWrite .PIN_MOTOR_L_PWM 100,
             .digitalWrite .PIN_MOTOR_R_CTRL .HIGH, .analogWrite .PIN_MOTOR_R_PWM 100])) := by
  have hd : dispatchedByte i = b := by simp [dispatchedByte, hi]
  have hstop := commandDispatch_stops (echoed c b) b hb
  have hmode : (commandDispatch (echoed c b) b).btMode = c.btMode := by
    rw [hstop, stop_eq, serialPrintln, emit_eq_record, record_record, record_btMode,
      echoed_eq, record_btMode]
  have hsym : (commandDispatch (echoed c b) b).showSymbols = c.showSymbols := by
    rw [hstop, stop_eq, serialPrintln, emit_eq_record, record_record, record_showSymbols,
      echoed_eq, record_showSymbols]
  have htick : enableBluetoothControl c i = modeDispatch (commandDispatch (echoed c b) b) i := by
    rw [enableBluetoothControl_eq, hd]
  have hline : c.btMode = BT_MODE_LINE_TRACKING →
      enableBluetoothControl c i =
        enableLineTracking (commandDispatch (echoed c b) b) i.left i.middle i.right :=
    fun h => by rw [htick, modeDispatch_line _ i (hmode.trans h)]
  have havoid : c.btMode = BT_MODE_AVOID →
      enableBluetoothControl c i =
        enableAvoidObstacles (commandDispatch (echoed c b) b)
          i.distance i.distLeft i.distRight :=
    fun h => by rw [htick, modeDispatch_avoid _ i (hmode.trans h)]
  have hfollow : c.btMode = BT_MODE_FOLLOWING →
      enableBluetoothControl c i =
        enableFollowMovingObjects (commandDispatch (echoed c b) b) i.distance :=
    fun h => by rw [htick, modeDispatch_following _ i (hmode.trans h)]
  refine ⟨hstop, ?_, hline, havoid, hfollow, ?_, ?_, ?_⟩
  · rw [htick, modeDispatch_btMode, hmode]
  · rw [hstop, callCount_stop, callCount_serialPrintln, callCount_echoed]
  · rcases hm with h | h | h
    · rw [hline h]; exact callCount_lineTracking_ge _ _ _ _
    · rw [havoid h]; exact callCount_avoid_ge _ _ _ _
    · rw [hfollow h, callCount_follow]
  · intro h hmid
    rw [hline h, hmid]
    have h100 : enableLineTracking (commandDispatch (echoed c b) b) i.left 1 i.right =
        goForwardSpeed (commandDispatch (echoed c b) b) 100 := by
      simp [enableLineTracking]
    rw [h100, goForwardSpeed_eq, record_trace, hsym]
    rfl

/-- C13 in the example state (mode `BT_MODE_LINE_TRACKING`), for a call that reads `'S'`
while the middle sensor reads 1. -/
theorem stop_byte_still_runs_controller_witness :
    (enableBluetoothControl exampleCar
      { quietInputs with serial := some 'S', middle := 1 }).btMode = exampleCar.btMode ∧
    (enableBluetoothControl exampleCar { quietInputs with serial := some 'S', middle := 1 }).trace =
      (commandDispatch (echoed exampleCar 'S') 'S').trace ++
        (.enter .goForward ::
          (if exampleCar.showSymbols then [.ledDisplay glyphForward] else []) ++
          [.digitalWrite .PIN_MOTOR_L_CTRL .HIGH, .analogWrite .PIN_MOTOR_L_PWM 100,
           .digitalWrite .PIN_MOTOR_R_CTRL .HIGH, .analogWrite .PIN_MOTOR_R_PWM 100]) :=
  ⟨(stop_byte_still_runs_controller exampleCar
      { quietInputs with serial := some 'S', middle := 1 } 'S'
      (Or.inl rfl) (Or.inl rfl) rfl).2.1,
   (stop_byte_still_runs_controller exampleCar
      { quietInputs with serial := some 'S', middle := 1 } 'S'
      (Or.inl rfl) (Or.inl rfl) rfl).2.2.2.2.2.2.2 rfl rfl⟩

end RaSmartCar4WD
